import Mathlib

/-!
# WiFi provisioning manager (`src/WiFi_Manager.cpp`)

A shallow embedding of `WiFiManagerClass`.  The instance fields are the record
`WiFiManagerClass`; everything outside the class (radio, clock, preference
store, HTTP response channel, reboot) is the record `World`.  Every call that
leaves the class appends one `Event` to `World.trace`, in program order, so
"never calls X" and "X precedes Y" are statements about the trace.  Values
returned by the platform are read from per-call answer streams held in
`World`: the k-th call of `WiFi.status()` is answered by `statusReads k`, and
so on; no assumption is made about the answers.
-/

namespace WiFiManager

/-! ## Platform types and constants -/

/-- Link status codes returned by `WiFi.status()` and `WiFi.begin(..)`. -/
inductive wl_status_t
  | WL_NO_SHIELD
  | WL_IDLE_STATUS
  | WL_NO_SSID_AVAIL
  | WL_SCAN_COMPLETED
  | WL_CONNECTED
  | WL_CONNECT_FAILED
  | WL_CONNECTION_LOST
  | WL_DISCONNECTED
  deriving DecidableEq

open wl_status_t

/-- Radio mode `WIFI_STA` of `WiFiMode_t` (platform value 1). -/
def WIFI_STA : Nat := 1

/-- Radio mode `WIFI_AP` of `WiFiMode_t` (platform value 2). -/
def WIFI_AP : Nat := 2

/-- Return value of `WiFi.scanNetworks()` when the scan failed (platform value -2). -/
def WIFI_SCAN_FAILED : Int := -2

/-- Modelled from the spec: `PREF_KEY_WIFI_SSID` of the absent `Config.h`; the
spec names the storage key `ssid`. -/
def PREF_KEY_WIFI_SSID : String := "ssid"

/-- Modelled from the spec: `PREF_KEY_WIFI_PASS` of the absent `Config.h`; the
spec names the storage key `pass`. -/
def PREF_KEY_WIFI_PASS : String := "pass"

/-- Modelled from the spec: `PREF_KEY_WIFI_MODE` of the absent `Config.h`; the
spec names the storage key `mode`. -/
def PREF_KEY_WIFI_MODE : String := "mode"

/-- The constants of the absent `Config.h` whose values the spec does not fix;
they are parameters of the embedding. -/
structure Config where
  CONNECTION_TIMEOUT : Nat
  AP_DEFAULT_SSID : String
  AP_DEFAULT_PASS : String
  PREF_WIFI_NAMESPACE : String

/-! ## The world outside the class -/

/-- One record of a finished scan, as read by `WiFi.SSID(i)`, `WiFi.RSSI(i)`,
`WiFi.channel(i)`, `WiFi.encryptionType(i)` and `WiFi.BSSIDstr(i)`. -/
structure NetInfo where
  ssid : String
  rssi : Int
  chan : Int
  enc : Nat
  bssid : String
  deriving DecidableEq

/-- What one call of `WiFi.scanNetworks()` yields: the returned `int16_t` and
the records the accessors read afterwards. -/
structure ScanResult where
  ret : Int
  nets : List NetInfo

/-- A value held by the preference store. -/
inductive PrefVal
  | str (s : String)
  | uchar (v : Nat)
  deriving DecidableEq

/-- Calls that leave the class, in the order they are made. -/
inductive Event
  | log (msg : String)
  | spiffsBegin
  | prefBegin (ns : String)
  | prefGetString (key : String)
  | prefGetUChar (key : String)
  | prefPutString (key : String) (val : String)
  | prefPutUChar (key : String) (val : Nat)
  | wifiMode (m : Nat)
  | wifiBegin (ssid : String) (pass : Option String)
  | wifiBeginStored
  | wifiStatus
  | wifiDisconnect (wifioff : Bool) (eraseap : Bool)
  | softAP (ssid : String) (pass : String)
  | softAPConfig
  | scanNetworks
  | millis
  | delay (ms : Nat)
  | serverStart
  | dnsStart
  | dnsProcessNextRequest
  | send (code : Nat) (contentType : String) (body : String)
  | reboot
  deriving DecidableEq

/-- State of everything outside the class. -/
structure World where
  /-- the preference store, by key -/
  prefs : String → Option PrefVal
  /-- answers of the coming calls of `WiFi.mode(..)` -/
  modeRets : Nat → Bool
  /-- answers of the coming calls of `WiFi.begin(ssid, pass)` -/
  beginRets : Nat → wl_status_t
  /-- answers of the coming calls of `WiFi.status()` -/
  statusReads : Nat → wl_status_t
  /-- answers of the coming calls of `millis()` (taken modulo 2^32) -/
  millisReads : Nat → Nat
  /-- outcomes of the coming calls of `WiFi.scanNetworks()` -/
  scans : Nat → ScanResult
  /-- records of the last finished scan -/
  lastScan : List NetInfo
  /-- the calls made so far -/
  trace : List Event

/-- Append one call to the trace. -/
def World.emit (w : World) (e : Event) : World :=
  { w with trace := w.trace ++ [e] }

/-- The macro `LOG_Println` of the absent `Log.h`: one log call. -/
def LOG_Println (msg : String) (w : World) : World :=
  w.emit (Event.log msg)

/-- The call `delay(ms)`. -/
def delay (ms : Nat) (w : World) : World :=
  w.emit (Event.delay ms)

/-- The call `millis()`: a 32-bit counter value. -/
def millis (w : World) : Nat × World :=
  (w.millisReads 0 % 2 ^ 32,
    { w with millisReads := fun k => w.millisReads (k + 1),
             trace := w.trace ++ [Event.millis] })

/-- The call `WiFi.mode(m)`. -/
def WiFi.mode (m : Nat) (w : World) : Bool × World :=
  (w.modeRets 0,
    { w with modeRets := fun k => w.modeRets (k + 1),
             trace := w.trace ++ [Event.wifiMode m] })

/-- The call `WiFi.begin(ssid, pass)`; `pass` is `none` for a NULL pointer. -/
def WiFi.begin (ssid : String) (pass : Option String) (w : World) : wl_status_t × World :=
  (w.beginRets 0,
    { w with beginRets := fun k => w.beginRets (k + 1),
             trace := w.trace ++ [Event.wifiBegin ssid pass] })

/-- The call `WiFi.status()`. -/
def WiFi.status (w : World) : wl_status_t × World :=
  (w.statusReads 0,
    { w with statusReads := fun k => w.statusReads (k + 1),
             trace := w.trace ++ [Event.wifiStatus] })

/-- The call `WiFi.scanNetworks()`: returns the count (or an error code) and
makes the found records readable. -/
def WiFi.scanNetworks (w : World) : Int × World :=
  ((w.scans 0).ret,
    { w with scans := fun k => w.scans (k + 1),
             lastScan := (w.scans 0).nets,
             trace := w.trace ++ [Event.scanNetworks] })

/-- `WiFi.SSID(networkItem)`.  The parameter is a `uint8_t`, so the record
read is `networkItem mod 256`; the empty string when there is no such record. -/
def WiFi.SSID (w : World) (networkItem : Nat) : String :=
  match w.lastScan[networkItem % 256]? with
  | some n => n.ssid
  | none => ""

/-- `WiFi.RSSI(networkItem)`, parameter `uint8_t`: 0 when there is no such
record. -/
def WiFi.RSSI (w : World) (networkItem : Nat) : Int :=
  match w.lastScan[networkItem % 256]? with
  | some n => n.rssi
  | none => 0

/-- `WiFi.channel(networkItem)`, parameter `uint8_t`: 0 when there is no such
record. -/
def WiFi.channel (w : World) (networkItem : Nat) : Int :=
  match w.lastScan[networkItem % 256]? with
  | some n => n.chan
  | none => 0

/-- `WiFi.encryptionType(networkItem)`, parameter `uint8_t`: 0 (open) when
there is no such record. -/
def WiFi.encryptionType (w : World) (networkItem : Nat) : Nat :=
  match w.lastScan[networkItem % 256]? with
  | some n => n.enc
  | none => 0

/-- `WiFi.BSSIDstr(networkItem)`, parameter `uint8_t`: the empty string when
there is no such record. -/
def WiFi.BSSIDstr (w : World) (networkItem : Nat) : String :=
  match w.lastScan[networkItem % 256]? with
  | some n => n.bssid
  | none => ""

/-- `_pref.putUChar(key, val)`. -/
def putUChar (key : String) (val : Nat) (w : World) : World :=
  { w with prefs := fun k => if k = key then some (PrefVal.uchar val) else w.prefs k,
           trace := w.trace ++ [Event.prefPutUChar key val] }

/-- `_pref.putString(key, val)`. -/
def putString (key : String) (val : String) (w : World) : World :=
  { w with prefs := fun k => if k = key then some (PrefVal.str val) else w.prefs k,
           trace := w.trace ++ [Event.prefPutString key val] }

/-- `_pref.getUChar(key, dflt)`: the default when the key is absent or holds
another type. -/
def getUChar (key : String) (dflt : Nat) (w : World) : Nat × World :=
  (match w.prefs key with
    | some (PrefVal.uchar v) => v
    | _ => dflt,
   w.emit (Event.prefGetUChar key))

/-- `_pref.getString(key, dflt)`: the default when the key is absent or holds
another type. -/
def getString (key : String) (dflt : String) (w : World) : String × World :=
  (match w.prefs key with
    | some (PrefVal.str s) => s
    | _ => dflt,
   w.emit (Event.prefGetString key))

/-- `Util.sysReboot()` of the absent `Util.h`: one reboot call. -/
def sysReboot (w : World) : World :=
  w.emit Event.reboot

/-! ## The class -/

/-- The instance fields of `WiFiManagerClass` the code reads and writes. -/
structure WiFiManagerClass where
  _ssid : String
  _pass : String
  _wifiMode : Nat
  _needConfig : Bool
  _doReset : Bool
  deriving DecidableEq

/-- `setWifiModePref(key, val)`. -/
def setWifiModePref (key : String) (val : Nat) (w : World) : World :=
  putUChar key val w

/-- `getWifiModePref(key)`. -/
def getWifiModePref (key : String) (w : World) : Nat × World :=
  getUChar key WIFI_STA w

/-- `setStringPref(key, val)`. -/
def setStringPref (key : String) (val : String) (w : World) : World :=
  putString key val w

/-- `getStringPref(key)`. -/
def getStringPref (key : String) (w : World) : String × World :=
  getString key "" w

/-- The `while` loop of `startSTA`:
`while (WiFi.status() != WL_CONNECTED && timeout > millis()) { LOG_Println("."); delay(500); }`.
The second operand is evaluated only when the first holds.  `none` when the
loop is still running after `fuel` evaluations of its condition. -/
def pollLoop (timeout : Nat) : Nat → World → Option World
  | 0, _ => none
  | fuel + 1, w =>
    let r := WiFi.status w
    if r.1 ≠ WL_CONNECTED then
      let m := millis r.2
      if timeout > m.1 then
        pollLoop timeout fuel (delay 500 (LOG_Println "." m.2))
      else
        some m.2
    else
      some r.2

/-- The statements of `startSTA` after its `while` loop. -/
def afterPoll (w : World) : Bool × World :=
  let r := WiFi.status w
  if r.1 = WL_DISCONNECTED then
    (false, LOG_Println "Conn FAIL" r.2)
  else
    let r2 := WiFi.status r.2
    if r2.1 = WL_CONNECTED then
      (true, LOG_Println "Conn OK" r2.2)
    else
      (false, r2.2)

/-- `WiFiManagerClass::startSTA`.  `none` only when the polling loop is still
running after `fuel` evaluations of its condition. -/
def startSTA (cfg : Config) (fuel : Nat) (self : WiFiManagerClass) (w : World) :
    Option (Bool × World) :=
  let pass : Option String := if self._pass.length > 0 then some self._pass else none
  let w := LOG_Println ("called with SSID " ++ self._ssid ++ " and pass " ++ self._pass) w
  if self._ssid.length > 0 then
    let w := LOG_Println ("using " ++ self._ssid ++ " and pass " ++ self._pass) w
    let rm := WiFi.mode WIFI_STA w
    if !rm.1 then
      some (false, rm.2)
    else
      let rb := WiFi.begin self._ssid pass rm.2
      if WL_CONNECT_FAILED = rb.1 then
        some (false, rb.2)
      else
        let now := millis rb.2
        let timeout := (now.1 + cfg.CONNECTION_TIMEOUT) % 2 ^ 32
        (pollLoop timeout fuel now.2).map afterPoll
  else
    some (false, w)

/-- Calls that operate the radio. -/
def Event.isRadioOp : Event → Bool
  | Event.wifiMode _ => true
  | Event.wifiBegin _ _ => true
  | Event.wifiBeginStored => true
  | Event.wifiStatus => true
  | Event.wifiDisconnect _ _ => true
  | Event.softAP _ _ => true
  | Event.softAPConfig => true
  | Event.scanNetworks => true
  | _ => false

/-! ## The `/reqwifi` handler -/

/-- The part of an `AsyncWebServerRequest` the handler reads: the request's
arguments (query and body parameters) as name/value pairs, in order. -/
structure AsyncWebServerRequest where
  url : String
  params : List (String × String)

/-- `request->hasArg(name)`: some argument has this name. -/
def AsyncWebServerRequest.hasArg (request : AsyncWebServerRequest) (name : String) : Bool :=
  request.params.any (fun p => p.1 == name)

/-- `request->arg(name)`: the value of the first argument of this name, the
empty string when there is none. -/
def AsyncWebServerRequest.arg (request : AsyncWebServerRequest) (name : String) : String :=
  match request.params.find? (fun p => p.1 == name) with
  | some p => p.2
  | none => ""

/-- `request->args()`: the number of arguments. -/
def AsyncWebServerRequest.args (request : AsyncWebServerRequest) : Nat :=
  request.params.length

/-- `request->arg((size_t)i)`: the value of argument `i`. -/
def AsyncWebServerRequest.argAt (request : AsyncWebServerRequest) (i : Nat) : String :=
  match request.params[i]? with
  | some p => p.2
  | none => ""

/-- `request->send(code, contentType, body)`. -/
def AsyncWebServerRequest.send (code : Nat) (contentType : String) (body : String)
    (w : World) : World :=
  w.emit (Event.send code contentType body)

/-- The body of the `for` loop of the handler: the five `result += ..`
statements for network `netId`.  The `int16_t netId` is converted to the
`uint8_t` parameter of the accessors, that is reduced modulo 256. -/
def appendNet (w : World) (result : String) (netId : Nat) : String :=
  let result := result ++ ("\x7b\"ssid\":\"" ++ WiFi.SSID w (netId % 256) ++ "\",")
  let result := result ++ ("\"rssi\":\"" ++ toString (WiFi.RSSI w (netId % 256)) ++ "\",")
  let result := result ++ ("\"chan\":\"" ++ toString (WiFi.channel w (netId % 256)) ++ "\",")
  let result :=
    result ++ ("\"type\":\"" ++ toString (WiFi.encryptionType w (netId % 256)) ++ "\",")
  result ++ ("\"bssid\":\"" ++ WiFi.BSSIDstr w (netId % 256) ++ "\"\x7d,")

/-- What the five accessors return for loop index `netId`, as one record:
record `netId mod 256` of the last scan, or the defaults when there is none. -/
def recordRead (w : World) (netId : Nat) : NetInfo :=
  { ssid := WiFi.SSID w (netId % 256)
    rssi := WiFi.RSSI w (netId % 256)
    chan := WiFi.channel w (netId % 256)
    enc := WiFi.encryptionType w (netId % 256)
    bssid := WiFi.BSSIDstr w (netId % 256) }

/-- `result[result.length() - 1] = c`: overwrite the last character; an empty
string is left as it is (the index is then out of range). -/
def setLastChar (result : String) (c : Char) : String :=
  if result.length = 0 then result else String.mk (result.data.dropLast ++ [c])

/-- The branch `scanRet > 0` of the handler: build the body for `scanRet`
networks, `netId` running from 0 to `scanRet - 1`. -/
def scanBody (w : World) (scanRet : Nat) : String :=
  let result := "\x7b\"networks\":["
  let result := (List.range scanRet).foldl (appendNet w) result
  let result := setLastChar result ']'
  result ++ "\x7d"

/-- `WiFiManagerClass::webServerANYWifReq`. -/
def webServerANYWifReq (self : WiFiManagerClass) (request : AsyncWebServerRequest)
    (w : World) : WiFiManagerClass × World :=
  let w := LOG_Println "Serve req" w
  if request.hasArg "refresh" then
    let result := "\x7b\"networks\":[]\x7d"
    let sc := WiFi.scanNetworks w
    let scanRet := sc.1
    let rw : String × World :=
      if scanRet = WIFI_SCAN_FAILED then
        (result, LOG_Println "Scan Failed" sc.2)
      else if scanRet > 0 then
        (scanBody sc.2 scanRet.toNat, sc.2)
      else
        (result, sc.2)
    let w := LOG_Println rw.1 rw.2
    (self, AsyncWebServerRequest.send 200 "text/plain" rw.1 w)
  else if request.hasArg "mode" then
    let mode := request.arg "mode"
    let self :=
      if mode = "ap" then
        { self with _wifiMode := WIFI_AP, _doReset := true }
      else if mode = "sta" then
        { self with _wifiMode := WIFI_STA }
      else
        self
    let w := setWifiModePref PREF_KEY_WIFI_MODE (self._wifiMode % 256) w
    (self, AsyncWebServerRequest.send 200 "text/plain" "OK" w)
  else if 2 = request.args then
    let self := { self with _ssid := request.argAt 0 }
    let self := if self._ssid.length > 0 then { self with _needConfig := true } else self
    let self := { self with _pass := request.argAt 1 }
    (self, AsyncWebServerRequest.send 200 "text/plain" "OK" w)
  else
    (self, AsyncWebServerRequest.send 403 "text/plain" "" w)

/-- `WiFiManagerClass::resetSetting`. -/
def resetSetting (self : WiFiManagerClass) (w : World) : WiFiManagerClass × World :=
  let self := { self with _wifiMode := WIFI_STA }
  let w := setWifiModePref PREF_KEY_WIFI_MODE (self._wifiMode % 256) w
  (self, sysReboot w)

/-- The responses sent so far: status code and body of every `send`, in order. -/
def responses : List Event → List (Nat × String)
  | [] => []
  | Event.send code _ body :: es => (code, body) :: responses es
  | _ :: es => responses es

/-- The keys written to the preference store so far, in order. -/
def prefWrites : List Event → List String
  | [] => []
  | Event.prefPutUChar key _ :: es => key :: prefWrites es
  | Event.prefPutString key _ :: es => key :: prefWrites es
  | _ :: es => prefWrites es

/-- The JSON object the specification gives for one network:
`{"ssid":"<ssid>","rssi":"<rssi>","chan":"<chan>","type":"<type>","bssid":"<bssid>"}`. -/
def netObject (n : NetInfo) : String :=
  "\x7b\"ssid\":\"" ++ n.ssid ++ "\",\"rssi\":\"" ++ toString n.rssi ++ "\",\"chan\":\"" ++
    toString n.chan ++ "\",\"type\":\"" ++ toString n.enc ++ "\",\"bssid\":\"" ++ n.bssid ++
    "\"\x7d"

/-- Every object followed by a comma, as the `for` loop accumulates them. -/
def objectsWithCommas : List NetInfo → String
  | [] => ""
  | n :: ns => netObject n ++ "," ++ objectsWithCommas ns

/-! ## Boot and the portal loop -/

/-- `WiFiManagerClass::startAP`. -/
def startAP (cfg : Config) (w : World) : World :=
  let w := LOG_Println "Starting in AP mode" w
  let w := w.emit (Event.softAP cfg.AP_DEFAULT_SSID cfg.AP_DEFAULT_PASS)
  let w := delay 2000 w
  let w := w.emit Event.softAPConfig
  w.emit Event.wifiBeginStored

/-- `WiFiManagerClass::beginCaptive`: disconnect, start the access point, start
the DNS responder, register the handlers and start the HTTP server. -/
def beginCaptive (cfg : Config) (w : World) : World :=
  let w := LOG_Println "Captive starting..." w
  let w := w.emit (Event.wifiDisconnect true true)
  let w := startAP cfg w
  let w := w.emit Event.dnsStart
  w.emit Event.serverStart

/-- How one pass of the `for(;;)` body of `loopCaptive` ends: in the reboot
call, which does not return, or at the end of the body. -/
inductive LoopStep
  | rebooted (self : WiFiManagerClass) (w : World)
  | next (self : WiFiManagerClass) (w : World)

/-- The block `if(_needConfig) { .. }` of the loop body: try the staged
credentials; on success set the mode, persist ssid, passphrase and mode, and
mark `_doReset`; clear `_needConfig` in both cases.  `none` only when the
polling loop of `startSTA` is still running after `fuel` tests. -/
def loopConfigPart (cfg : Config) (fuel : Nat) (self : WiFiManagerClass) (w : World) :
    Option (WiFiManagerClass × World) :=
  if self._needConfig then
    let w := LOG_Println "test new connection" w
    match startSTA cfg fuel self w with
    | none => none
    | some (ok, w) =>
      if ok then
        let self := { self with _wifiMode := WIFI_STA }
        let w := setStringPref PREF_KEY_WIFI_SSID self._ssid w
        let w := setStringPref PREF_KEY_WIFI_PASS self._pass w
        let w := setWifiModePref PREF_KEY_WIFI_MODE (self._wifiMode % 256) w
        some ({ self with _doReset := true, _needConfig := false }, w)
      else
        some ({ self with _needConfig := false }, w)
  else
    some (self, w)

/-- The rest of the loop body: the block `if(_doReset) { .. }`, whose reboot
call does not return, and otherwise the call `_dns->processNextRequest()`. -/
def loopResetPart (self : WiFiManagerClass) (w : World) : LoopStep :=
  if self._doReset then
    LoopStep.rebooted { self with _doReset := false } (sysReboot w)
  else
    LoopStep.next self (w.emit Event.dnsProcessNextRequest)

/-- One pass of the `for(;;)` body of `WiFiManagerClass::loopCaptive`.  `none`
only when the polling loop of `startSTA` is still running after `fuel` tests. -/
def loopCaptiveIter (cfg : Config) (fuel : Nat) (self : WiFiManagerClass) (w : World) :
    Option LoopStep :=
  (loopConfigPart cfg fuel self w).map (fun r => loopResetPart r.1 r.2)

/-- Where `WiFiManagerClass::begin` leaves the device: running as access
point, connected as station, at the entry of `loopCaptive` (after
`beginCaptive`), or with a stored mode that is neither `WIFI_AP` nor
`WIFI_STA`. -/
inductive BootOutcome
  | accessPoint (self : WiFiManagerClass) (w : World)
  | station (self : WiFiManagerClass) (w : World)
  | portal (self : WiFiManagerClass) (w : World)
  | noMode (self : WiFiManagerClass) (w : World)

/-- `WiFiManagerClass::begin`, up to the call of `loopCaptive`.  `none` only
when the polling loop of `startSTA` is still running after `fuel` tests. -/
def begin (cfg : Config) (fuel : Nat) (self : WiFiManagerClass) (w : World) :
    Option BootOutcome :=
  let w := w.emit Event.spiffsBegin
  let w := w.emit (Event.prefBegin cfg.PREF_WIFI_NAMESPACE)
  let rs := getStringPref PREF_KEY_WIFI_SSID w
  let rp := getStringPref PREF_KEY_WIFI_PASS rs.2
  let rm := getWifiModePref PREF_KEY_WIFI_MODE rp.2
  let self := { self with _ssid := rs.1, _pass := rp.1, _wifiMode := rm.1 }
  if WIFI_AP = self._wifiMode then
    some (BootOutcome.accessPoint self (startAP cfg rm.2))
  else if WIFI_STA = self._wifiMode then
    match startSTA cfg fuel self rm.2 with
    | none => none
    | some (ok, w) =>
      if !ok then
        some (BootOutcome.portal self (beginCaptive cfg w))
      else
        some (BootOutcome.station self w)
  else
    some (BootOutcome.noMode self rm.2)

/-! ## JSON texts (RFC 8259), to state that the refresh body is well-formed -/

/-- A JSON value; a number keeps its text. -/
inductive Json
  | null
  | bool (b : Bool)
  | num (text : String)
  | str (s : String)
  | arr (items : List Json)
  | obj (members : List (String × Json))

/-- Skip JSON whitespace: space, tab, line feed, carriage return. -/
def skipWs : List Char → List Char
  | [] => []
  | c :: cs => if c = ' ' ∨ c = '\t' ∨ c = '\n' ∨ c = '\r' then skipWs cs else c :: cs

/-- Value of one hexadecimal digit. -/
def hexVal (c : Char) : Option Nat :=
  if 48 ≤ c.toNat ∧ c.toNat ≤ 57 then some (c.toNat - 48)
  else if 97 ≤ c.toNat ∧ c.toNat ≤ 102 then some (c.toNat - 87)
  else if 65 ≤ c.toNat ∧ c.toNat ≤ 70 then some (c.toNat - 55)
  else none

/-- The character a two-character escape `\c` stands for. -/
def escapeChar (c : Char) : Option Char :=
  if c = '"' then some '"'
  else if c = '\\' then some '\\'
  else if c = '/' then some '/'
  else if c = 'b' then some (Char.ofNat 8)
  else if c = 'f' then some (Char.ofNat 12)
  else if c = 'n' then some '\n'
  else if c = 'r' then some '\r'
  else if c = 't' then some '\t'
  else none

/-- Read a string after its opening quote, up to and including the closing
quote; `acc` holds the characters read so far.  A control character must be
escaped, a backslash must start a valid escape. -/
def parseStringBody : Nat → List Char → List Char → Option (String × List Char)
  | 0, _, _ => none
  | _ + 1, [], _ => none
  | n + 1, c :: rest, acc =>
    if c = '"' then
      some (String.mk acc, rest)
    else if c = '\\' then
      match rest with
      | [] => none
      | e :: rest2 =>
        if e = 'u' then
          match rest2 with
          | h1 :: h2 :: h3 :: h4 :: rest3 =>
            match hexVal h1, hexVal h2, hexVal h3, hexVal h4 with
            | some a, some b, some c2, some d =>
              parseStringBody n rest3 (acc ++ [Char.ofNat (((a * 16 + b) * 16 + c2) * 16 + d)])
            | _, _, _, _ => none
          | _ => none
        else
          match escapeChar e with
          | some x => parseStringBody n rest2 (acc ++ [x])
          | none => none
    else if c.toNat < 32 then
      none
    else
      parseStringBody n rest (acc ++ [c])

/-- Split off the leading decimal digits. -/
def takeDigits : List Char → List Char × List Char
  | [] => ([], [])
  | c :: cs =>
    if 48 ≤ c.toNat ∧ c.toNat ≤ 57 then
      ((takeDigits cs).1.cons c, (takeDigits cs).2)
    else
      ([], c :: cs)

/-- Read a number: optional minus, integer part without leading zeros,
optional fraction, optional exponent. -/
def parseNumber (cs : List Char) : Option (String × List Char) :=
  let sign : List Char × List Char :=
    match cs with
    | c :: r => if c = '-' then ([c], r) else ([], cs)
    | [] => ([], [])
  let int : Option (List Char × List Char) :=
    match sign.2 with
    | [] => none
    | d :: r =>
      if d = '0' then some ([d], r)
      else if 49 ≤ d.toNat ∧ d.toNat ≤ 57 then some ((takeDigits r).1.cons d, (takeDigits r).2)
      else none
  match int with
  | none => none
  | some (ip, r1) =>
    let frac : Option (List Char × List Char) :=
      match r1 with
      | c :: r =>
        if c = '.' then
          (if (takeDigits r).1 = [] then none else some ((takeDigits r).1.cons c, (takeDigits r).2))
        else some ([], r1)
      | [] => some ([], [])
    match frac with
    | none => none
    | some (fp, r2) =>
      let exp : Option (List Char × List Char) :=
        match r2 with
        | c :: r =>
          if c = 'e' ∨ c = 'E' then
            let sg : List Char × List Char :=
              match r with
              | s :: r3 => if s = '+' ∨ s = '-' then ([s], r3) else ([], r)
              | [] => ([], [])
            (if (takeDigits sg.2).1 = [] then none
             else some ((c :: sg.1) ++ (takeDigits sg.2).1, (takeDigits sg.2).2))
          else some ([], r2)
        | [] => some ([], [])
      match exp with
      | none => none
      | some (ep, r3) => some (String.mk (sign.1 ++ ip ++ fp ++ ep), r3)

/-- Read the rest of an array after one element: `, value` repeated, then `]`. -/
def parseElems (pv : List Char → Option (Json × List Char)) :
    Nat → List Char → List Json → Option (List Json × List Char)
  | 0, _, _ => none
  | n + 1, cs, acc =>
    match skipWs cs with
    | [] => none
    | c :: rest =>
      if c = ']' then some (acc, rest)
      else if c = ',' then
        match pv rest with
        | some (v, rest2) => parseElems pv n rest2 (acc ++ [v])
        | none => none
      else none

/-- Read one member `"key" : value`. -/
def parseMember (pv : List Char → Option (Json × List Char)) (cs : List Char) :
    Option ((String × Json) × List Char) :=
  match skipWs cs with
  | [] => none
  | q :: r =>
    if q = '"' then
      match parseStringBody (r.length + 1) r [] with
      | none => none
      | some (k, r2) =>
        match skipWs r2 with
        | [] => none
        | c :: r3 =>
          if c = ':' then
            match pv r3 with
            | some (v, r4) => some ((k, v), r4)
            | none => none
          else none
    else none

/-- Read the rest of an object after one member: `, member` repeated, then `}`. -/
def parseMembers (pv : List Char → Option (Json × List Char)) :
    Nat → List Char → List (String × Json) → Option (List (String × Json) × List Char)
  | 0, _, _ => none
  | n + 1, cs, acc =>
    match skipWs cs with
    | [] => none
    | c :: rest =>
      if c = '}' then some (acc, rest)
      else if c = ',' then
        match parseMember pv rest with
        | some (m, rest2) => parseMembers pv n rest2 (acc ++ [m])
        | none => none
      else none

/-- Read one JSON value, skipping whitespace before it; `fuel` bounds the
nesting depth. -/
def parseValue : Nat → List Char → Option (Json × List Char)
  | 0, _ => none
  | fuel + 1, cs =>
    match skipWs cs with
    | [] => none
    | c :: rest =>
      if c = '{' then
        match skipWs rest with
        | [] => none
        | d :: r =>
          if d = '}' then some (Json.obj [], r)
          else
            match parseMember (parseValue fuel) rest with
            | none => none
            | some (m, r2) =>
              match parseMembers (parseValue fuel) (r2.length + 1) r2 [m] with
              | some (ms, r3) => some (Json.obj ms, r3)
              | none => none
      else if c = '[' then
        match skipWs rest with
        | [] => none
        | d :: r =>
          if d = ']' then some (Json.arr [], r)
          else
            match parseValue fuel rest with
            | none => none
            | some (v, r2) =>
              match parseElems (parseValue fuel) (r2.length + 1) r2 [v] with
              | some (vs, r3) => some (Json.arr vs, r3)
              | none => none
      else if c = '"' then
        match parseStringBody (rest.length + 1) rest [] with
        | some (s, r) => some (Json.str s, r)
        | none => none
      else if c = 't' then
        match rest with
        | 'r' :: 'u' :: 'e' :: r => some (Json.bool true, r)
        | _ => none
      else if c = 'f' then
        match rest with
        | 'a' :: 'l' :: 's' :: 'e' :: r => some (Json.bool false, r)
        | _ => none
      else if c = 'n' then
        match rest with
        | 'u' :: 'l' :: 'l' :: r => some (Json.null, r)
        | _ => none
      else
        match parseNumber (c :: rest) with
        | some (t, r) => some (Json.num t, r)
        | none => none

/-- Parse a whole JSON text: one value surrounded by optional whitespace. -/
def parseJson (text : String) : Option Json :=
  match parseValue (text.length + 1) text.data with
  | some (v, rest) => if skipWs rest = [] then some v else none
  | none => none

/-- The value of the first member named `key`. -/
def lookupMember (key : String) : List (String × Json) → Option Json
  | [] => none
  | (k, v) :: ms => if k = key then some v else lookupMember key ms

/-- The `ssid` string member of an object. -/
def ssidMember : Json → Option String
  | Json.obj ms =>
    match lookupMember "ssid" ms with
    | some (Json.str s) => some s
    | _ => none
  | _ => none

/-- The `ssid` members of a list of objects, when each has one. -/
def ssidMembers : List Json → Option (List String)
  | [] => some []
  | j :: js =>
    match ssidMember j, ssidMembers js with
    | some s, some ss => some (s :: ss)
    | _, _ => none

/-- What the specification asks of a refresh body: it parses as an object whose
`networks` member is an array of objects, and the `ssid` string members of
these objects are the given SSIDs, in order. -/
def bodyListsSsids (body : String) (ssids : List String) : Bool :=
  match parseJson body with
  | some (Json.obj ms) =>
    match lookupMember "networks" ms with
    | some (Json.arr items) => decide (ssidMembers items = some ssids)
    | _ => false
  | _ => false

/-- The calls `begin` makes before it dispatches on the mode. -/
def bootReads (cfg : Config) : List Event :=
  [Event.spiffsBegin, Event.prefBegin cfg.PREF_WIFI_NAMESPACE,
   Event.prefGetString PREF_KEY_WIFI_SSID, Event.prefGetString PREF_KEY_WIFI_PASS,
   Event.prefGetUChar PREF_KEY_WIFI_MODE]

/-- The instance fields after the three store reads of `begin`. -/
def loadedSelf (self : WiFiManagerClass) (w : World) : WiFiManagerClass :=
  { self with
    _ssid := (getStringPref PREF_KEY_WIFI_SSID w).1
    _pass := (getStringPref PREF_KEY_WIFI_PASS w).1
    _wifiMode := (getWifiModePref PREF_KEY_WIFI_MODE w).1 }

/-- The calls of `startAP`. -/
def startAPCalls (cfg : Config) : List Event :=
  [Event.log "Starting in AP mode", Event.softAP cfg.AP_DEFAULT_SSID cfg.AP_DEFAULT_PASS,
   Event.delay 2000, Event.softAPConfig, Event.wifiBeginStored]

/-- The calls of `beginCaptive`. -/
def beginCaptiveCalls (cfg : Config) : List Event :=
  [Event.log "Captive starting...", Event.wifiDisconnect true true] ++ startAPCalls cfg ++
    [Event.dnsStart, Event.serverStart]

/-! ## The device as a transition system -/

/-- The values written to the persisted mode key so far, in order. -/
def modeWrites : List Event → List Nat
  | [] => []
  | Event.prefPutUChar key val :: es =>
    if key = PREF_KEY_WIFI_MODE then val :: modeWrites es else modeWrites es
  | _ :: es => modeWrites es

/-- Calls that write the preference store. -/
def Event.isStoreWrite : Event → Bool
  | Event.prefPutUChar _ _ => true
  | Event.prefPutString _ _ => true
  | _ => false

/-- World `w2` continues world `w` without a store write: same store content,
same keys written, same values written to the mode key. -/
def storeUntouched (w w2 : World) : Prop :=
  w2.prefs = w.prefs ∧ prefWrites w2.trace = prefWrites w.trace ∧
    modeWrites w2.trace = modeWrites w.trace

/-- The calls `startSTA` can make: log, `WiFi.mode`, `WiFi.begin(ssid, pass)`,
`millis`, `WiFi.status`, `delay`. -/
def Event.isStationCall : Event → Bool
  | Event.log _ => true
  | Event.wifiMode _ => true
  | Event.wifiBegin _ _ => true
  | Event.wifiStatus => true
  | Event.millis => true
  | Event.delay _ => true
  | _ => false

/-- World `w2` continues world `w` by calls of `startSTA` only. -/
def stationCallsOnly (w w2 : World) : Prop :=
  ∃ evs, w2.trace = w.trace ++ evs ∧ ∀ e, e ∈ evs → e.isStationCall = true

/-- Where the device is: not running (before `begin`, or after a reboot call),
or where `begin` left it. -/
inductive Phase
  | down
  | accessPoint
  | station
  | portal
  | noMode
  deriving DecidableEq

/-- The device: phase, instance fields, and the world outside. -/
structure Sys where
  phase : Phase
  self : WiFiManagerClass
  w : World

/-- The operations of the device: a boot (`begin`), a `/reqwifi` request
delivered to the handler, one pass of the portal loop, a `resetSetting` call. -/
inductive Op
  | boot
  | request (r : AsyncWebServerRequest)
  | loopIter
  | reset

/-- The state in which `begin` leaves the device. -/
def BootOutcome.toSys : BootOutcome → Sys
  | BootOutcome.accessPoint self w => { phase := Phase.accessPoint, self := self, w := w }
  | BootOutcome.station self w => { phase := Phase.station, self := self, w := w }
  | BootOutcome.portal self w => { phase := Phase.portal, self := self, w := w }
  | BootOutcome.noMode self w => { phase := Phase.noMode, self := self, w := w }

/-- The state after one pass of the portal loop. -/
def LoopStep.toSys : LoopStep → Sys
  | LoopStep.rebooted self w => { phase := Phase.down, self := self, w := w }
  | LoopStep.next self w => { phase := Phase.portal, self := self, w := w }

/-- Modelled from the spec: the constructor of the class, declared in the
absent `WiFi_Manager.h`.  The spec has `needConfig` and `doReset` unset in the
initial state; the other three fields are overwritten by `begin`. -/
def constructed (self : WiFiManagerClass) : WiFiManagerClass :=
  { self with _needConfig := false, _doReset := false }

/-- One operation.  A boot is possible when the device is down and starts from
freshly constructed fields; the handler is registered, and the portal loop
runs, only in the portal; `resetSetting` can be called at any time.  `none`
when the operation is not possible, or when the polling loop of `startSTA` is
still running after `fuel` tests. -/
def step (cfg : Config) (fuel : Nat) (op : Op) (s : Sys) : Option Sys :=
  match op with
  | Op.boot =>
    if s.phase = Phase.down then
      (begin cfg fuel (constructed s.self) s.w).map BootOutcome.toSys
    else none
  | Op.request r =>
    if s.phase = Phase.portal then
      some { phase := Phase.portal
             self := (webServerANYWifReq s.self r s.w).1
             w := (webServerANYWifReq s.self r s.w).2 }
    else none
  | Op.loopIter =>
    if s.phase = Phase.portal then
      (loopCaptiveIter cfg fuel s.self s.w).map LoopStep.toSys
    else none
  | Op.reset =>
    some { phase := Phase.down
           self := (resetSetting s.self s.w).1
           w := (resetSetting s.self s.w).2 }

/-- A sequence of operations, first to last. -/
def run (cfg : Config) (fuel : Nat) : List Op → Sys → Option Sys
  | [], s => some s
  | op :: ops, s =>
    match step cfg fuel op s with
    | none => none
    | some s2 => run cfg fuel ops s2

/-- An operation that may write the store by design: `resetSetting`, a pass of
the portal loop whose connection attempt succeeds, and a `/reqwifi` request
with a `mode` argument and no `refresh` argument. -/
def writesStore (cfg : Config) (fuel : Nat) (op : Op) (s : Sys) : Bool :=
  match op with
  | Op.boot => false
  | Op.request r => !r.hasArg "refresh" && r.hasArg "mode"
  | Op.loopIter =>
    s.self._needConfig &&
      (match startSTA cfg fuel s.self (LOG_Println "test new connection" s.w) with
       | some (ok, _) => ok
       | none => false)
  | Op.reset => true

/-! ## Concrete inputs used to instantiate the theorems -/

/-- Sample configuration constants. -/
def demoCfg : Config :=
  { CONNECTION_TIMEOUT := 10000, AP_DEFAULT_SSID := "ESP32", AP_DEFAULT_PASS := "12345678",
    PREF_WIFI_NAMESPACE := "wifi" }

/-- Two sample scan records; the first SSID contains a double quote. -/
def demoNets : List NetInfo :=
  [{ ssid := "a\"b", rssi := -70, chan := 6, enc := 3, bssid := "AA:BB:CC:DD:EE:01" },
   { ssid := "Home", rssi := -55, chan := 11, enc := 4, bssid := "AA:BB:CC:DD:EE:02" }]

/-- A sample world: empty store, a clock that advances 500 ms per read, and
the given answers of `WiFi.mode`, `WiFi.begin`, `WiFi.status` and
`WiFi.scanNetworks`. -/
def demoWorld (modeOk : Bool) (beginRet : wl_status_t) (status : Nat → wl_status_t)
    (scan : ScanResult) : World :=
  { prefs := fun _ => none
    modeRets := fun _ => modeOk
    beginRets := fun _ => beginRet
    statusReads := status
    millisReads := fun k => 500 * k
    scans := fun _ => scan
    lastScan := []
    trace := [] }

/-- A sample world whose store holds ssid "Home", passphrase "secret" and the
given mode byte. -/
def demoStoredWorld (mode : Nat) (status : Nat → wl_status_t) : World :=
  { demoWorld true WL_IDLE_STATUS status ⟨0, []⟩ with
    prefs := fun k =>
      if k = PREF_KEY_WIFI_SSID then some (PrefVal.str "Home")
      else if k = PREF_KEY_WIFI_PASS then some (PrefVal.str "secret")
      else if k = PREF_KEY_WIFI_MODE then some (PrefVal.uchar mode)
      else none }

/-- Sample instance fields: the given credentials, mode Station, flags unset. -/
def demoSelf (ssid : String) (pass : String) : WiFiManagerClass :=
  { _ssid := ssid, _pass := pass, _wifiMode := WIFI_STA, _needConfig := false,
    _doReset := false }

/-- A status stream that reads `WL_DISCONNECTED` twice and `WL_CONNECTED` from then on. -/
def connectsAtPoll2 : Nat → wl_status_t :=
  fun k => if k < 2 then WL_DISCONNECTED else WL_CONNECTED

/-- A sample record with the given SSID. -/
def demoNet (ssid : String) : NetInfo :=
  { ssid := ssid, rssi := -60, chan := 1, enc := 3, bssid := "AA:BB:CC:DD:EE:03" }

/-- A sample scan of 257 records: 256 records with SSID "first" and a last one
with SSID "last". -/
def demoNets257 : List NetInfo :=
  List.replicate 256 (demoNet "first") ++ [demoNet "last"]

/-- A sample world whose clock is 1000 ms before the 32-bit wrap at the first
read and advances 500 ms per read. -/
def demoRolloverWorld (status : Nat → wl_status_t) : World :=
  { demoWorld true WL_IDLE_STATUS status ⟨0, []⟩ with
    millisReads := fun k => 4294966296 + 500 * k }

/-- A sample world whose clock is 10001 ms before the 32-bit wrap at the first
read and advances 501 ms per read; the link reads `WL_DISCONNECTED`
throughout. -/
def demoLateWorld : World :=
  { demoWorld true WL_IDLE_STATUS (fun _ => WL_DISCONNECTED) ⟨0, []⟩ with
    millisReads := fun k => 4294957295 + 501 * k }

/-- A sample world 1000 ms before the 32-bit clock wraps: the clock advances
1 ms per read, the link reads `WL_DISCONNECTED` throughout. -/
def demoWrapWorld : World :=
  { demoWorld true WL_IDLE_STATUS (fun _ => WL_DISCONNECTED) ⟨0, []⟩ with
    millisReads := fun k => 4294966296 + k }

/-- No operation of the sequence, started in `s`, is one that may write the
store by design. -/
def noWriterAlong (cfg : Config) (fuel : Nat) : List Op → Sys → Prop
  | [], _ => True
  | op :: ops, s =>
    writesStore cfg fuel op s = false ∧
      ∀ s2, step cfg fuel op s = some s2 → noWriterAlong cfg fuel ops s2

end WiFiManager

/-! # Theorems -/

namespace WiFiManager

open wl_status_t

set_option maxRecDepth 100000

/-! ## Auxiliary facts -/

theorem length_pos_of_ne_empty (s : String) (h : s ≠ "") : 0 < s.length := by
  rcases s with ⟨l⟩
  cases l with
  | nil => exact absurd rfl h
  | cons a t => simp [String.length]

/-- The polling loop ends at the first poll that reads `WL_CONNECTED`, when
every earlier poll was made before the deadline; it has then consumed `k + 1`
status answers. -/
theorem pollLoop_connected (T : Nat) :
    ∀ (k : Nat) (w : World) (fuel : Nat),
      (∀ j, j < k → w.statusReads j ≠ WL_CONNECTED ∧ w.millisReads j % 2 ^ 32 < T) →
      w.statusReads k = WL_CONNECTED → k + 1 ≤ fuel →
      ∃ w2, pollLoop T fuel w = some w2 ∧
        ∀ j, w2.statusReads j = w.statusReads (j + (k + 1)) := by
  intro k
  induction k with
  | zero =>
    intro w fuel _ hk hf
    obtain ⟨f, rfl⟩ : ∃ f, fuel = f + 1 := ⟨fuel - 1, by omega⟩
    refine ⟨(WiFi.status w).2, ?_, ?_⟩
    · simp [pollLoop, WiFi.status, hk]
    · intro j
      simp [WiFi.status]
  | succ k ih =>
    intro w fuel hlt hk hf
    obtain ⟨f, rfl⟩ : ∃ f, fuel = f + 1 := ⟨fuel - 1, by omega⟩
    have h0 := hlt 0 (Nat.succ_pos k)
    have hstep := ih (delay 500 (LOG_Println "." (millis (WiFi.status w).2).2)) f
      (by
        intro j hj
        have := hlt (j + 1) (by omega)
        simpa [delay, LOG_Println, World.emit, millis, WiFi.status] using this)
      (by simpa [delay, LOG_Println, World.emit, millis, WiFi.status] using hk)
      (by omega)
    obtain ⟨w2, hw2, hs⟩ := hstep
    refine ⟨w2, ?_, ?_⟩
    · have h1 : (WiFi.status w).1 ≠ WL_CONNECTED := h0.1
      have h2 : T > (millis (WiFi.status w).2).1 := h0.2
      rw [pollLoop]
      simp only [h1, h2, ne_eq, not_false_eq_true, if_true]
      exact hw2
    · intro j
      rw [hs j]
      simp only [delay, LOG_Println, World.emit, millis, WiFi.status]
      rfl

/-- When every status read is `WL_DISCONNECTED` and some clock read reaches
the deadline, the polling loop ends, and the reads after it are still
`WL_DISCONNECTED`. -/
theorem pollLoop_disconnected (T : Nat) :
    ∀ (k : Nat) (w : World) (fuel : Nat),
      (∀ j, w.statusReads j = WL_DISCONNECTED) →
      T ≤ w.millisReads k % 2 ^ 32 → k + 1 ≤ fuel →
      ∃ w2, pollLoop T fuel w = some w2 ∧ ∀ j, w2.statusReads j = WL_DISCONNECTED := by
  intro k
  induction k with
  | zero =>
    intro w fuel hd hk hf
    obtain ⟨f, rfl⟩ : ∃ f, fuel = f + 1 := ⟨fuel - 1, by omega⟩
    refine ⟨(millis (WiFi.status w).2).2, ?_, ?_⟩
    · have h1 : (WiFi.status w).1 ≠ WL_CONNECTED := by
        simp [WiFi.status, hd 0]
      have h2 : ¬ (T > (millis (WiFi.status w).2).1) := by
        simpa [millis, WiFi.status] using hk
      rw [pollLoop]
      simp only [h1, h2, ne_eq, not_false_eq_true, if_true, if_false]
    · intro j
      simpa [millis, WiFi.status] using hd (j + 1)
  | succ k ih =>
    intro w fuel hd hk hf
    obtain ⟨f, rfl⟩ : ∃ f, fuel = f + 1 := ⟨fuel - 1, by omega⟩
    have h1 : (WiFi.status w).1 ≠ WL_CONNECTED := by
      simp [WiFi.status, hd 0]
    by_cases h2 : T > (millis (WiFi.status w).2).1
    · obtain ⟨w2, hw2, hs⟩ := ih (delay 500 (LOG_Println "." (millis (WiFi.status w).2).2)) f
        (by
          intro j
          simpa [delay, LOG_Println, World.emit, millis, WiFi.status] using hd (j + 1))
        (by simpa [delay, LOG_Println, World.emit, millis, WiFi.status] using hk)
        (by omega)
      refine ⟨w2, ?_, hs⟩
      rw [pollLoop]
      simp only [h1, h2, ne_eq, not_false_eq_true, if_true]
      exact hw2
    · refine ⟨(millis (WiFi.status w).2).2, ?_, ?_⟩
      · rw [pollLoop]
        simp only [h1, h2, ne_eq, not_false_eq_true, if_true, if_false]
      · intro j
        simpa [millis, WiFi.status] using hd (j + 1)

/-! ## Station connector -/

/-- C1: when the held SSID is the empty string (any passphrase, any fuel),
`startSTA` returns false and the world it leaves is the initial one with a
single log call appended: no answer of `WiFi.mode`, `WiFi.begin` or
`WiFi.status` is consumed and the trace gains no radio operation. -/
theorem C1_startSTA_empty_ssid_no_radio (cfg : Config) (fuel : Nat) (self : WiFiManagerClass)
    (w : World) (h : self._ssid = "") :
    ∃ w2, startSTA cfg fuel self w = some (false, w2) ∧
      w2 = { w with trace := w.trace ++
        [Event.log ("called with SSID " ++ self._ssid ++ " and pass " ++ self._pass)] } ∧
      w2.trace.filter Event.isRadioOp = w.trace.filter Event.isRadioOp := by
  refine ⟨_, ?_, rfl, ?_⟩
  · simp [startSTA, h, LOG_Println, World.emit]
  · simp [List.filter_append, Event.isRadioOp]

/-- Instance of C1 with SSID "" and passphrase "secret". -/
theorem C1_startSTA_empty_ssid_no_radio_witness :
    ∃ w2, startSTA demoCfg 0 (demoSelf "" "secret")
        (demoWorld true WL_IDLE_STATUS connectsAtPoll2 ⟨0, []⟩) = some (false, w2) ∧
      w2 = { demoWorld true WL_IDLE_STATUS connectsAtPoll2 ⟨0, []⟩ with
        trace := (demoWorld true WL_IDLE_STATUS connectsAtPoll2 ⟨0, []⟩).trace ++
          [Event.log ("called with SSID " ++ (demoSelf "" "secret")._ssid ++ " and pass " ++
            (demoSelf "" "secret")._pass)] } ∧
      w2.trace.filter Event.isRadioOp =
        (demoWorld true WL_IDLE_STATUS connectsAtPoll2 ⟨0, []⟩).trace.filter Event.isRadioOp :=
  C1_startSTA_empty_ssid_no_radio demoCfg 0 (demoSelf "" "secret")
    (demoWorld true WL_IDLE_STATUS connectsAtPoll2 ⟨0, []⟩) rfl

/-- With a non-empty SSID, a successful switch to station mode and a join that
does not fail at once, `startSTA` is its polling loop followed by the two
status checks, started in the world left by the first clock read. -/
theorem startSTA_reaches_poll (cfg : Config) (fuel : Nat) (self : WiFiManagerClass) (w : World)
    (hs : self._ssid ≠ "") (hm : w.modeRets 0 = true)
    (hb : w.beginRets 0 ≠ WL_CONNECT_FAILED) :
    startSTA cfg fuel self w =
      (pollLoop ((w.millisReads 0 % 2 ^ 32 + cfg.CONNECTION_TIMEOUT) % 2 ^ 32) fuel
        { w with
          modeRets := fun k => w.modeRets (k + 1)
          beginRets := fun k => w.beginRets (k + 1)
          millisReads := fun k => w.millisReads (k + 1)
          trace := w.trace ++
            [Event.log ("called with SSID " ++ self._ssid ++ " and pass " ++ self._pass),
             Event.log ("using " ++ self._ssid ++ " and pass " ++ self._pass),
             Event.wifiMode WIFI_STA,
             Event.wifiBegin self._ssid
               (if self._pass.length > 0 then some self._pass else none),
             Event.millis] }).map afterPoll := by
  have hpos := length_pos_of_ne_empty _ hs
  have hb2 : ¬ (WL_CONNECT_FAILED = w.beginRets 0) := fun h => hb h.symm
  simp only [startSTA, hpos, if_true, WiFi.mode, LOG_Println, World.emit, hm, Bool.not_true,
    Bool.false_eq_true, if_false, WiFi.begin, hb2, millis, List.append_assoc,
    List.singleton_append, List.cons_append, List.nil_append]

/-- The world in which the polling loop starts has the status answers of the
initial world and its clock answers shifted by the one read that fixed the
deadline. -/
theorem startSTA_poll_streams (cfg : Config) (self : WiFiManagerClass) (w : World)
    (hs : self._ssid ≠ "") (hm : w.modeRets 0 = true)
    (hb : w.beginRets 0 ≠ WL_CONNECT_FAILED) :
    ∃ w3, (∀ fuel, startSTA cfg fuel self w =
        (pollLoop ((w.millisReads 0 % 2 ^ 32 + cfg.CONNECTION_TIMEOUT) % 2 ^ 32) fuel w3).map
          afterPoll) ∧
      w3.statusReads = w.statusReads ∧ ∀ k, w3.millisReads k = w.millisReads (k + 1) :=
  ⟨_, fun fuel => startSTA_reaches_poll cfg fuel self w hs hm hb, rfl, fun _ => rfl⟩

/-- The result of `startSTA` in terms of the loop's own test, which compares
32-bit counter values: for a non-empty SSID, a successful switch to station
mode and a join that does not report immediate failure, with the value
`(millis() + CONNECTION_TIMEOUT) mod 2^32` taken from the first clock read:
(1) if poll `k` reads `WL_CONNECTED`, every earlier clock read was below that
value, and the two reads after the loop do not read `WL_DISCONNECTED` resp.
read `WL_CONNECTED`, then `startSTA` returns true (for every fuel of at least
`k + 1` loop tests); (2) if every status read is `WL_DISCONNECTED` and clock
read `k + 1` is not below that value, then `startSTA` returns false. -/
theorem startSTA_result_by_loop_test (cfg : Config) (self : WiFiManagerClass)
    (w : World) (hs : self._ssid ≠ "") (hm : w.modeRets 0 = true)
    (hb : w.beginRets 0 ≠ WL_CONNECT_FAILED) :
    (∀ k, (∀ j, j < k → w.statusReads j ≠ WL_CONNECTED ∧
              w.millisReads (j + 1) % 2 ^ 32 <
                (w.millisReads 0 % 2 ^ 32 + cfg.CONNECTION_TIMEOUT) % 2 ^ 32) →
          w.statusReads k = WL_CONNECTED →
          w.statusReads (k + 1) ≠ WL_DISCONNECTED →
          w.statusReads (k + 2) = WL_CONNECTED →
          ∀ fuel, k + 1 ≤ fuel → ∃ w2, startSTA cfg fuel self w = some (true, w2)) ∧
    (∀ k, (∀ j, w.statusReads j = WL_DISCONNECTED) →
          (w.millisReads 0 % 2 ^ 32 + cfg.CONNECTION_TIMEOUT) % 2 ^ 32 ≤
            w.millisReads (k + 1) % 2 ^ 32 →
          ∀ fuel, k + 1 ≤ fuel → ∃ w2, startSTA cfg fuel self w = some (false, w2)) := by
  constructor
  · intro k hlt hk h1 h2 fuel hf
    obtain ⟨w3, hrun, hst3, hml3⟩ := startSTA_poll_streams cfg self w hs hm hb
    rw [hrun fuel]
    obtain ⟨w2, hw2, hst⟩ := pollLoop_connected
      ((w.millisReads 0 % 2 ^ 32 + cfg.CONNECTION_TIMEOUT) % 2 ^ 32) k w3 fuel
      (by
        intro j hj
        rw [hst3, hml3]
        exact hlt j hj)
      (by rw [hst3]; exact hk) hf
    rw [hw2]
    have e1 : w2.statusReads 0 = w.statusReads (k + 1) := by
      rw [hst 0, hst3]
      simp
    have e2 : w2.statusReads 1 = w.statusReads (k + 2) := by
      rw [hst 1, hst3]
      congr 1
      omega
    have n1 : ¬ (w2.statusReads 0 = WL_DISCONNECTED) := by
      rw [e1]
      exact h1
    have n2 : w2.statusReads 1 = WL_CONNECTED := by
      rw [e2]
      exact h2
    simp only [Option.map_some', afterPoll, WiFi.status, n1, if_false, zero_add, n2, if_true]
    exact ⟨_, rfl⟩
  · intro k hd hk fuel hf
    obtain ⟨w3, hrun, hst3, hml3⟩ := startSTA_poll_streams cfg self w hs hm hb
    rw [hrun fuel]
    obtain ⟨w2, hw2, hst⟩ := pollLoop_disconnected
      ((w.millisReads 0 % 2 ^ 32 + cfg.CONNECTION_TIMEOUT) % 2 ^ 32) k w3 fuel
      (by rw [hst3]; exact hd) (by rw [hml3]; exact hk) hf
    rw [hw2]
    simp only [Option.map_some', afterPoll, WiFi.status, hst 0, if_true]
    exact ⟨_, rfl⟩

/-- An instance: the link connects at the third poll, 1000 ms after the join,
with a 10000 ms timeout; and the link stays disconnected until clock read 20
reaches the deadline. -/
theorem startSTA_result_by_loop_test_instance :
    (∃ w2, startSTA demoCfg 3 (demoSelf "Home" "secret")
        (demoWorld true WL_IDLE_STATUS connectsAtPoll2 ⟨0, []⟩) = some (true, w2)) ∧
    (∃ w2, startSTA demoCfg 20 (demoSelf "Home" "secret")
        (demoWorld true WL_IDLE_STATUS (fun _ => WL_DISCONNECTED) ⟨0, []⟩) = some (false, w2)) :=
  ⟨(startSTA_result_by_loop_test demoCfg (demoSelf "Home" "secret")
      (demoWorld true WL_IDLE_STATUS connectsAtPoll2 ⟨0, []⟩)
      (by decide) rfl (by decide)).1 2 (by decide) (by decide) (by decide) (by decide) 3
      (by decide),
   (startSTA_result_by_loop_test demoCfg (demoSelf "Home" "secret")
      (demoWorld true WL_IDLE_STATUS (fun _ => WL_DISCONNECTED) ⟨0, []⟩)
      (by decide) rfl (by decide)).2 19 (fun _ => rfl) (by decide) 20 (by decide)⟩

/-- When no clock value involved reaches 2^32, the loop's test is a comparison
of elapsed time: connected at a poll made before `millis() +
CONNECTION_TIMEOUT` gives true, disconnected throughout with a clock read at
or after it gives false. -/
theorem startSTA_by_elapsed_time_without_wrap (cfg : Config) (self : WiFiManagerClass)
    (w : World) (hs : self._ssid ≠ "") (hm : w.modeRets 0 = true)
    (hb : w.beginRets 0 ≠ WL_CONNECT_FAILED)
    (hsum : w.millisReads 0 + cfg.CONNECTION_TIMEOUT < 2 ^ 32) :
    (∀ k, (∀ j, j ≤ k → w.millisReads j < 2 ^ 32) →
          (∀ j, j < k → w.statusReads j ≠ WL_CONNECTED ∧
              w.millisReads (j + 1) < w.millisReads 0 + cfg.CONNECTION_TIMEOUT) →
          w.statusReads k = WL_CONNECTED →
          w.statusReads (k + 1) ≠ WL_DISCONNECTED →
          w.statusReads (k + 2) = WL_CONNECTED →
          ∀ fuel, k + 1 ≤ fuel → ∃ w2, startSTA cfg fuel self w = some (true, w2)) ∧
    (∀ k, (∀ j, w.statusReads j = WL_DISCONNECTED) →
          w.millisReads (k + 1) < 2 ^ 32 →
          w.millisReads 0 + cfg.CONNECTION_TIMEOUT ≤ w.millisReads (k + 1) →
          ∀ fuel, k + 1 ≤ fuel → ∃ w2, startSTA cfg fuel self w = some (false, w2)) := by
  have h0 : w.millisReads 0 % 2 ^ 32 = w.millisReads 0 := Nat.mod_eq_of_lt (by omega)
  have hT : (w.millisReads 0 % 2 ^ 32 + cfg.CONNECTION_TIMEOUT) % 2 ^ 32 =
      w.millisReads 0 + cfg.CONNECTION_TIMEOUT := by
    rw [h0, Nat.mod_eq_of_lt hsum]
  have key := startSTA_result_by_loop_test cfg self w hs hm hb
  rw [hT] at key
  constructor
  · intro k hlt hbefore hk h1 h2 fuel hf
    refine key.1 k ?_ hk h1 h2 fuel hf
    intro j hj
    have hb1 := hbefore j hj
    have hlt1 : w.millisReads (j + 1) < 2 ^ 32 := hlt (j + 1) (by omega)
    rw [Nat.mod_eq_of_lt hlt1]
    exact hb1
  · intro k hd hlt hk fuel hf
    refine key.2 k hd ?_ fuel hf
    rw [Nat.mod_eq_of_lt hlt]
    exact hk

/-- C2 (the code departs from the specification at the rollover of the 32-bit
clock).  Late exit: with the first clock read 10001 ms before the wrap and a
timeout of 10000 ms the deadline value is 2^32 - 1; the clock, read every
501 ms, steps over it (read 19 is before the deadline, read 20 is 20 ms after
it and has wrapped to 19), so although every status read is `WL_DISCONNECTED`
up to and after the deadline, `startSTA` is still polling after 120 loop tests
and has returned nothing.  Early exit: with the first clock read 1000 ms
before the wrap the deadline value wraps to 9000, and with a link that reads
`WL_CONNECTED` from the third read on (1000 ms after the join by the clock
reads, 9000 ms before the deadline) `startSTA` leaves the loop at its first
test and returns false. -/
theorem C2_rollover_late_and_early_exit :
    (∀ j, j < 123 → demoLateWorld.statusReads j = WL_DISCONNECTED) ∧
    (demoLateWorld.millisReads 0 % 2 ^ 32 + demoCfg.CONNECTION_TIMEOUT) % 2 ^ 32 =
      2 ^ 32 - 1 ∧
    demoLateWorld.millisReads 19 < demoLateWorld.millisReads 0 + demoCfg.CONNECTION_TIMEOUT ∧
    demoLateWorld.millisReads 0 + demoCfg.CONNECTION_TIMEOUT ≤ demoLateWorld.millisReads 20 ∧
    demoLateWorld.millisReads 20 % 2 ^ 32 = 19 ∧
    (startSTA demoCfg 120 (demoSelf "Home" "secret") demoLateWorld).isNone = true ∧
    (∀ j, j < 3 → (demoRolloverWorld connectsAtPoll2).millisReads j <
      (demoRolloverWorld connectsAtPoll2).millisReads 0 + demoCfg.CONNECTION_TIMEOUT) ∧
    (demoRolloverWorld connectsAtPoll2).statusReads 2 = WL_CONNECTED ∧
    (startSTA demoCfg 3 (demoSelf "Home" "secret") (demoRolloverWorld connectsAtPoll2)).map
        (fun r => (r.1, r.2.trace)) =
      some (false,
        [Event.log "called with SSID Home and pass secret",
         Event.log "using Home and pass secret",
         Event.wifiMode WIFI_STA,
         Event.wifiBegin "Home" (some "secret"),
         Event.millis,
         Event.wifiStatus,
         Event.millis,
         Event.wifiStatus,
         Event.log "Conn FAIL"]) := by
  refine ⟨by decide, by decide, by decide, by decide, by decide, by decide, by decide,
    by decide, by decide⟩

/-- C3: for a non-empty SSID, (a) when `WiFi.mode(WIFI_STA)` reports failure,
`startSTA` returns false and its last call is that `WiFi.mode` (no join, no
status read); (b) when the join returns `WL_CONNECT_FAILED` it returns false
and its last call is that `WiFi.begin` (no clock read, no status read, no
delay); (c) for any other join result it reads the clock and runs the polling
loop. -/
theorem C3_startSTA_fail_fast (cfg : Config) (fuel : Nat) (self : WiFiManagerClass) (w : World)
    (hs : self._ssid ≠ "") :
    (w.modeRets 0 = false →
      startSTA cfg fuel self w = some (false,
        { w with
          modeRets := fun k => w.modeRets (k + 1)
          trace := w.trace ++
            [Event.log ("called with SSID " ++ self._ssid ++ " and pass " ++ self._pass),
             Event.log ("using " ++ self._ssid ++ " and pass " ++ self._pass),
             Event.wifiMode WIFI_STA] })) ∧
    (w.modeRets 0 = true → w.beginRets 0 = WL_CONNECT_FAILED →
      startSTA cfg fuel self w = some (false,
        { w with
          modeRets := fun k => w.modeRets (k + 1)
          beginRets := fun k => w.beginRets (k + 1)
          trace := w.trace ++
            [Event.log ("called with SSID " ++ self._ssid ++ " and pass " ++ self._pass),
             Event.log ("using " ++ self._ssid ++ " and pass " ++ self._pass),
             Event.wifiMode WIFI_STA,
             Event.wifiBegin self._ssid
               (if self._pass.length > 0 then some self._pass else none)] })) ∧
    (w.modeRets 0 = true → w.beginRets 0 ≠ WL_CONNECT_FAILED →
      startSTA cfg fuel self w =
        (pollLoop ((w.millisReads 0 % 2 ^ 32 + cfg.CONNECTION_TIMEOUT) % 2 ^ 32) fuel
          { w with
            modeRets := fun k => w.modeRets (k + 1)
            beginRets := fun k => w.beginRets (k + 1)
            millisReads := fun k => w.millisReads (k + 1)
            trace := w.trace ++
              [Event.log ("called with SSID " ++ self._ssid ++ " and pass " ++ self._pass),
               Event.log ("using " ++ self._ssid ++ " and pass " ++ self._pass),
               Event.wifiMode WIFI_STA,
               Event.wifiBegin self._ssid
                 (if self._pass.length > 0 then some self._pass else none),
               Event.millis] }).map afterPoll) := by
  have hpos := length_pos_of_ne_empty _ hs
  refine ⟨?_, ?_, ?_⟩
  · intro hm
    simp only [startSTA, hpos, if_true, WiFi.mode, LOG_Println, World.emit, hm, Bool.not_false,
      List.append_assoc, List.singleton_append, List.cons_append, List.nil_append]
  · intro hm hb
    simp only [startSTA, hpos, if_true, WiFi.mode, LOG_Println, World.emit, hm, Bool.not_true,
      Bool.false_eq_true, if_false, WiFi.begin, hb, List.append_assoc,
      List.singleton_append, List.cons_append, List.nil_append]
  · intro hm hb
    exact startSTA_reaches_poll cfg fuel self w hs hm hb

/-- Instance of C3 with SSID "Home": a failing mode switch, a join that fails
at once, and a join in progress. -/
theorem C3_startSTA_fail_fast_witness :
    (∃ w2, startSTA demoCfg 0 (demoSelf "Home" "")
        (demoWorld false WL_IDLE_STATUS connectsAtPoll2 ⟨0, []⟩) = some (false, w2) ∧
        w2.trace.filter Event.isRadioOp = [Event.wifiMode WIFI_STA]) ∧
    (∃ w2, startSTA demoCfg 0 (demoSelf "Home" "")
        (demoWorld true WL_CONNECT_FAILED connectsAtPoll2 ⟨0, []⟩) = some (false, w2) ∧
        w2.trace.filter Event.isRadioOp =
          [Event.wifiMode WIFI_STA, Event.wifiBegin "Home" none]) ∧
    (∃ w3, startSTA demoCfg 3 (demoSelf "Home" "")
        (demoWorld true WL_IDLE_STATUS connectsAtPoll2 ⟨0, []⟩) =
          (pollLoop 10000 3 w3).map afterPoll) :=
  ⟨⟨_, (C3_startSTA_fail_fast demoCfg 0 (demoSelf "Home" "")
      (demoWorld false WL_IDLE_STATUS connectsAtPoll2 ⟨0, []⟩) (by decide)).1 rfl, by decide⟩,
   ⟨_, (C3_startSTA_fail_fast demoCfg 0 (demoSelf "Home" "")
      (demoWorld true WL_CONNECT_FAILED connectsAtPoll2 ⟨0, []⟩) (by decide)).2.1 rfl rfl,
      by decide⟩,
   ⟨_, (C3_startSTA_fail_fast demoCfg 3 (demoSelf "Home" "")
      (demoWorld true WL_IDLE_STATUS connectsAtPoll2 ⟨0, []⟩) (by decide)).2.2 rfl
      (by decide)⟩⟩

/-! ## The `/reqwifi` handler: refresh -/

theorem responses_append (a b : List Event) :
    responses (a ++ b) = responses a ++ responses b := by
  induction a with
  | nil => rfl
  | cons e t ih => cases e <;> simp [responses, ih]

theorem prefWrites_append (a b : List Event) :
    prefWrites (a ++ b) = prefWrites a ++ prefWrites b := by
  induction a with
  | nil => rfl
  | cons e t ih => cases e <;> simp [prefWrites, ih]

/-- One pass of the loop body appends the object of the record read for
`netId`, and a comma. -/
theorem appendNet_eq (w : World) (result : String) (netId : Nat) :
    appendNet w result netId = result ++ (netObject (recordRead w netId) ++ ",") := by
  apply String.ext
  simp only [appendNet, recordRead, netObject, String.data_append, List.append_assoc]
  rfl

/-- Appending one record to the accumulated objects. -/
theorem objectsWithCommas_concat (l : List NetInfo) (n : NetInfo) :
    objectsWithCommas (l ++ [n]) = objectsWithCommas l ++ (netObject n ++ ",") := by
  induction l with
  | nil => simp [objectsWithCommas]
  | cons a t ih => simp [objectsWithCommas, ih, String.append_assoc]

/-- The `for` loop over `k` indices accumulates the objects of the records it
reads, each followed by a comma, in index order. -/
theorem foldl_appendNet (w : World) (result : String) :
    ∀ k, (List.range k).foldl (appendNet w) result =
        result ++ objectsWithCommas ((List.range k).map (recordRead w)) := by
  intro k
  induction k with
  | zero => simp [objectsWithCommas]
  | succ k ih =>
    rw [List.range_succ, List.foldl_append, ih, List.map_append]
    simp only [List.foldl_cons, List.foldl_nil, List.map_cons, List.map_nil]
    rw [appendNet_eq, objectsWithCommas_concat, String.append_assoc]

/-- Dropping the last comma of the accumulated objects leaves them joined by
single commas. -/
theorem objectsWithCommas_eq_intercalate (n : NetInfo) (ns : List NetInfo) :
    objectsWithCommas (n :: ns) =
      String.intercalate "," ((n :: ns).map netObject) ++ "," := by
  have hgo : ∀ (l : List NetInfo) (acc : String),
      String.intercalate.go acc "," (l.map netObject) ++ "," =
        acc ++ "," ++ objectsWithCommas l := by
    intro l
    induction l with
    | nil =>
      intro acc
      simp [String.intercalate.go, objectsWithCommas]
    | cons a t ih =>
      intro acc
      simp only [List.map_cons, String.intercalate.go, ih, objectsWithCommas,
        String.append_assoc]
  simp only [List.map_cons, String.intercalate, hgo, objectsWithCommas]

/-- Overwriting the last character of a string that ends in one character. -/
theorem setLastChar_append_singleton (s : String) (d c : Char) :
    setLastChar (s ++ String.mk [d]) c = s ++ String.mk [c] := by
  have hlen : (s ++ String.mk [d]).length ≠ 0 := by
    rw [String.length_append]
    show s.length + 1 ≠ 0
    omega
  apply String.ext
  simp only [setLastChar, hlen, if_false, String.data_append, List.dropLast_concat]

/-- The body built by a loop of `k > 0` passes: the objects of the records
read for the indices 0 .. k-1, joined by single commas. -/
theorem scanBody_eq_reads (w : World) (k : Nat) (hk : 0 < k) :
    scanBody w k =
      "\x7b\"networks\":[" ++
        String.intercalate "," (((List.range k).map (recordRead w)).map netObject) ++
        "]\x7d" := by
  have hc : ("," : String) = String.mk [','] := rfl
  have hb : ("]\x7d" : String) = String.mk [']'] ++ "\x7d" := rfl
  obtain ⟨n, ns, hcons⟩ : ∃ n ns, (List.range k).map (recordRead w) = n :: ns := by
    cases hl : (List.range k).map (recordRead w) with
    | nil =>
      have := congrArg List.length hl
      simp at this
      omega
    | cons a t => exact ⟨a, t, rfl⟩
  simp only [scanBody]
  rw [foldl_appendNet w _ k, hcons, objectsWithCommas_eq_intercalate, ← String.append_assoc, hc,
    setLastChar_append_singleton, hb, String.append_assoc]

/-- For the first 256 indices the record read is the scanned record of that
index. -/
theorem map_recordRead_eq_take (w : World) :
    ∀ k, k ≤ 256 → k ≤ w.lastScan.length →
      (List.range k).map (recordRead w) = w.lastScan.take k := by
  intro k
  induction k with
  | zero =>
    intro _ _
    simp
  | succ k ih =>
    intro h1 h2
    have hlt : k < w.lastScan.length := by omega
    have hmod : k % 256 = k := Nat.mod_eq_of_lt (by omega)
    have hget : w.lastScan[k]? = some w.lastScan[k] := List.getElem?_eq_getElem hlt
    have hrec : recordRead w k = w.lastScan[k] := by
      simp only [recordRead, WiFi.SSID, WiFi.RSSI, WiFi.channel, WiFi.encryptionType,
        WiFi.BSSIDstr, Nat.mod_mod, hmod, hget]
    rw [List.range_succ, List.map_append, ih (by omega) (by omega), List.take_succ, hget]
    simp [hrec]

/-- The body built for a scan of 1 to 256 records. -/
theorem scanBody_eq (w : World) (hpos : 0 < w.lastScan.length)
    (hle : w.lastScan.length ≤ 256) :
    scanBody w w.lastScan.length =
      "\x7b\"networks\":[" ++ String.intercalate "," (w.lastScan.map netObject) ++
        "]\x7d" := by
  rw [scanBody_eq_reads w _ hpos, map_recordRead_eq_take w _ hle (Nat.le_refl _),
    List.take_length]

/-- C4: for every request that has the argument `refresh` (whatever else it
carries), when the scan returns `WIFI_SCAN_FAILED` or 0 (indeed any value not
above 0), the handler sends exactly one response, status 200 with body
`{"networks":[]}`, and changes neither the instance fields nor the store. -/
theorem C4_refresh_empty_scan (self : WiFiManagerClass) (request : AsyncWebServerRequest)
    (w : World) (hr : request.hasArg "refresh" = true) (hs : (w.scans 0).ret ≤ 0) :
    (webServerANYWifReq self request w).1 = self ∧
    (webServerANYWifReq self request w).2.prefs = w.prefs ∧
    responses (webServerANYWifReq self request w).2.trace =
      responses w.trace ++ [(200, "\x7b\"networks\":[]\x7d")] ∧
    (webServerANYWifReq self request w).2.trace =
      w.trace ++ [Event.log "Serve req", Event.scanNetworks] ++
        (if (w.scans 0).ret = WIFI_SCAN_FAILED then [Event.log "Scan Failed"] else []) ++
        [Event.log "\x7b\"networks\":[]\x7d",
         Event.send 200 "text/plain" "\x7b\"networks\":[]\x7d"] := by
  have hpos : ¬ ((w.scans 0).ret > 0) := by omega
  by_cases hf : (w.scans 0).ret = WIFI_SCAN_FAILED
  · simp [webServerANYWifReq, hr, WiFi.scanNetworks, LOG_Println, World.emit,
      AsyncWebServerRequest.send, hf, responses_append, responses]
  · simp [webServerANYWifReq, hr, WiFi.scanNetworks, LOG_Println, World.emit,
      AsyncWebServerRequest.send, hf, hpos, responses_append, responses]

/-- Instance of C4: a failed scan and a scan that finds nothing. -/
theorem C4_refresh_empty_scan_witness :
    responses (webServerANYWifReq (demoSelf "" "") ⟨"/reqwifi", [("refresh", "1")]⟩
        (demoWorld true WL_IDLE_STATUS connectsAtPoll2 ⟨WIFI_SCAN_FAILED, []⟩)).2.trace =
      responses (demoWorld true WL_IDLE_STATUS connectsAtPoll2 ⟨WIFI_SCAN_FAILED, []⟩).trace ++
        [(200, "\x7b\"networks\":[]\x7d")] ∧
    responses (webServerANYWifReq (demoSelf "" "") ⟨"/reqwifi", [("x", "y"), ("refresh", "")]⟩
        (demoWorld true WL_IDLE_STATUS connectsAtPoll2 ⟨0, []⟩)).2.trace =
      responses (demoWorld true WL_IDLE_STATUS connectsAtPoll2 ⟨0, []⟩).trace ++
        [(200, "\x7b\"networks\":[]\x7d")] :=
  ⟨(C4_refresh_empty_scan (demoSelf "" "") ⟨"/reqwifi", [("refresh", "1")]⟩
      (demoWorld true WL_IDLE_STATUS connectsAtPoll2 ⟨WIFI_SCAN_FAILED, []⟩)
      (by decide) (by decide)).2.2.1,
   (C4_refresh_empty_scan (demoSelf "" "") ⟨"/reqwifi", [("x", "y"), ("refresh", "")]⟩
      (demoWorld true WL_IDLE_STATUS connectsAtPoll2 ⟨0, []⟩)
      (by decide) (by decide)).2.2.1⟩

/-- The refresh response for a scan that returns a count above 0: status 200
and the body built by the loop over that many indices. -/
theorem refresh_response_of_pos (self : WiFiManagerClass) (request : AsyncWebServerRequest)
    (w : World) (hr : request.hasArg "refresh" = true) (hpos : (w.scans 0).ret > 0) :
    (webServerANYWifReq self request w).1 = self ∧
    (webServerANYWifReq self request w).2.prefs = w.prefs ∧
    responses (webServerANYWifReq self request w).2.trace =
      responses w.trace ++
        [(200, scanBody (WiFi.scanNetworks (LOG_Println "Serve req" w)).2
          (w.scans 0).ret.toNat)] := by
  have hf : ¬ ((w.scans 0).ret = WIFI_SCAN_FAILED) := by
    simp only [WIFI_SCAN_FAILED]
    omega
  refine ⟨?_, ?_, ?_⟩
  · simp [webServerANYWifReq, hr]
  · simp [webServerANYWifReq, hr, WiFi.scanNetworks, LOG_Println, World.emit,
      AsyncWebServerRequest.send, hf, hpos]
  · simp [webServerANYWifReq, hr, WiFi.scanNetworks, LOG_Println, World.emit,
      AsyncWebServerRequest.send, hf, hpos, responses_append, responses]

/-- C5 (as amended): for every request that has the argument `refresh`, when
the scan returns the count `n` of the records it found and `0 < n ≤ 256`, the
handler sends exactly one response, status 200, whose body is `{"networks":[`
followed by the objects of the records in scan order (none dropped, none
merged) joined by single commas, followed by `]}`; instance fields and store
are unchanged. -/
theorem C5_refresh_scan_body (self : WiFiManagerClass) (request : AsyncWebServerRequest)
    (w : World) (hr : request.hasArg "refresh" = true)
    (hn : (w.scans 0).nets ≠ [])
    (hle : (w.scans 0).nets.length ≤ 256)
    (hret : (w.scans 0).ret = ((w.scans 0).nets.length : Int)) :
    (webServerANYWifReq self request w).1 = self ∧
    (webServerANYWifReq self request w).2.prefs = w.prefs ∧
    responses (webServerANYWifReq self request w).2.trace =
      responses w.trace ++
        [(200, "\x7b\"networks\":[" ++
          String.intercalate "," ((w.scans 0).nets.map netObject) ++ "]\x7d")] := by
  have hlen : 0 < (w.scans 0).nets.length := List.length_pos.mpr hn
  have hpos : (w.scans 0).ret > 0 := by omega
  have hscan : (WiFi.scanNetworks (LOG_Println "Serve req" w)).2.lastScan = (w.scans 0).nets :=
    rfl
  have hbody := scanBody_eq (WiFi.scanNetworks (LOG_Println "Serve req" w)).2
    (by rw [hscan]; exact hlen) (by rw [hscan]; exact hle)
  have hnat : (w.scans 0).ret.toNat =
      (WiFi.scanNetworks (LOG_Println "Serve req" w)).2.lastScan.length := by
    rw [hscan, hret]
    simp
  obtain ⟨h1, h2, h3⟩ := refresh_response_of_pos self request w hr hpos
  refine ⟨h1, h2, ?_⟩
  rw [h3, hnat, hbody, hscan]

/-- Instance of C5 (as amended): a scan that finds the two sample records. -/
theorem C5_refresh_scan_body_witness :
    responses (webServerANYWifReq (demoSelf "" "") ⟨"/reqwifi", [("refresh", "1")]⟩
        (demoWorld true WL_IDLE_STATUS connectsAtPoll2 ⟨2, demoNets⟩)).2.trace =
      responses (demoWorld true WL_IDLE_STATUS connectsAtPoll2 ⟨2, demoNets⟩).trace ++
        [(200, "\x7b\"networks\":[" ++
          String.intercalate ","
            (((demoWorld true WL_IDLE_STATUS connectsAtPoll2 ⟨2, demoNets⟩).scans 0).nets.map
              netObject) ++ "]\x7d")] :=
  (C5_refresh_scan_body (demoSelf "" "") ⟨"/reqwifi", [("refresh", "1")]⟩
    (demoWorld true WL_IDLE_STATUS connectsAtPoll2 ⟨2, demoNets⟩)
    (by decide) (by decide) (by decide) (by decide)).2.2

/-- Cancelling a common start of two strings. -/
theorem string_append_left_cancel {s a b : String} (h : s ++ a = s ++ b) : a = b := by
  have hd := congrArg String.data h
  simp only [String.data_append] at hd
  exact String.ext (List.append_cancel_left hd)

/-- Cancelling a common end of two strings. -/
theorem string_append_right_cancel {s a b : String} (h : a ++ s = b ++ s) : a = b := by
  have hd := congrArg String.data h
  simp only [String.data_append] at hd
  exact String.ext (List.append_cancel_right hd)

/-- C5 (counterexample): for a scan of 257 records, 256 with SSID "first" and
the last with SSID "last", the loop index 256 is narrowed to 0 by the `uint8_t`
parameter of the accessors, so the last object of the body is that of record 0
again and record 256 is dropped: the body is not the 257 objects in scan
order. -/
theorem C5_scan_of_257_repeats_record_0 :
    responses (webServerANYWifReq (demoSelf "" "") ⟨"/reqwifi", [("refresh", "1")]⟩
        (demoWorld true WL_IDLE_STATUS connectsAtPoll2 ⟨257, demoNets257⟩)).2.trace =
      [(200, "\x7b\"networks\":[" ++
        String.intercalate ","
          ((List.replicate 256 (demoNet "first") ++ [demoNet "first"]).map netObject) ++
        "]\x7d")] ∧
    responses (webServerANYWifReq (demoSelf "" "") ⟨"/reqwifi", [("refresh", "1")]⟩
        (demoWorld true WL_IDLE_STATUS connectsAtPoll2 ⟨257, demoNets257⟩)).2.trace ≠
      responses (demoWorld true WL_IDLE_STATUS connectsAtPoll2 ⟨257, demoNets257⟩).trace ++
        [(200, "\x7b\"networks\":[" ++
          String.intercalate "," (demoNets257.map netObject) ++ "]\x7d")] := by
  have hlen257 : demoNets257.length = 257 := by
    rw [demoNets257, List.length_append, List.length_replicate]
    rfl
  have hscan : (WiFi.scanNetworks (LOG_Println "Serve req"
      (demoWorld true WL_IDLE_STATUS connectsAtPoll2 ⟨257, demoNets257⟩))).2.lastScan =
      demoNets257 := rfl
  have hreads : (List.range 257).map (recordRead (WiFi.scanNetworks (LOG_Println "Serve req"
      (demoWorld true WL_IDLE_STATUS connectsAtPoll2 ⟨257, demoNets257⟩))).2) =
      List.replicate 256 (demoNet "first") ++ [demoNet "first"] := by
    have h256 := map_recordRead_eq_take (WiFi.scanNetworks (LOG_Println "Serve req"
      (demoWorld true WL_IDLE_STATUS connectsAtPoll2 ⟨257, demoNets257⟩))).2 256
      (Nat.le_refl _) (by rw [hscan, hlen257]; omega)
    have htake : demoNets257.take 256 = List.replicate 256 (demoNet "first") :=
      List.take_left' (List.length_replicate _ _)
    have hlast : recordRead (WiFi.scanNetworks (LOG_Println "Serve req"
        (demoWorld true WL_IDLE_STATUS connectsAtPoll2 ⟨257, demoNets257⟩))).2 256 =
        demoNet "first" := by
      have h0 : demoNets257[0]? = some (demoNet "first") := rfl
      simp only [recordRead, WiFi.SSID, WiFi.RSSI, WiFi.channel, WiFi.encryptionType,
        WiFi.BSSIDstr, hscan, Nat.mod_self, Nat.zero_mod, h0]
    rw [List.range_succ, List.map_append, h256, hscan, htake]
    simp [hlast]
  have hresp := (refresh_response_of_pos (demoSelf "" "") ⟨"/reqwifi", [("refresh", "1")]⟩
    (demoWorld true WL_IDLE_STATUS connectsAtPoll2 ⟨257, demoNets257⟩)
    (by decide) (by decide)).2.2
  have hbody := scanBody_eq_reads (WiFi.scanNetworks (LOG_Println "Serve req"
    (demoWorld true WL_IDLE_STATUS connectsAtPoll2 ⟨257, demoNets257⟩))).2 257 (by omega)
  rw [hreads] at hbody
  have hnat : ((demoWorld true WL_IDLE_STATUS connectsAtPoll2 ⟨257, demoNets257⟩).scans
      0).ret.toNat = 257 := rfl
  have htr : responses (demoWorld true WL_IDLE_STATUS connectsAtPoll2
      ⟨257, demoNets257⟩).trace = [] := rfl
  rw [hnat, hbody, htr, List.nil_append] at hresp
  refine ⟨hresp, ?_⟩
  rw [hresp, htr, List.nil_append]
  intro heq
  simp only [List.cons.injEq, Prod.mk.injEq, true_and, and_true] at heq
  have h1 := string_append_left_cancel (string_append_right_cancel heq)
  have hne : ∀ l : List NetInfo, l ++ [demoNet "first"] ≠ [] := by
    intro l
    simp
  have hne2 : ∀ l : List NetInfo, l ++ [demoNet "last"] ≠ [] := by
    intro l
    simp
  have hoc : ∀ l : List NetInfo, l ≠ [] →
      objectsWithCommas l = String.intercalate "," (l.map netObject) ++ "," := by
    intro l hl
    cases l with
    | nil => exact absurd rfl hl
    | cons a t => exact objectsWithCommas_eq_intercalate a t
  have h2 : objectsWithCommas (List.replicate 256 (demoNet "first") ++ [demoNet "first"]) =
      objectsWithCommas demoNets257 := by
    rw [hoc _ (hne _), hoc demoNets257 (hne2 _), h1]
  simp only [demoNets257, objectsWithCommas_concat] at h2
  have h3 := string_append_right_cancel (string_append_left_cancel h2)
  exact absurd h3 (by decide)

/-! ## The `/reqwifi` handler: mode change, credentials, rejection -/

/-- C7: for every request without a `refresh` argument and with a `mode`
argument: value "ap" sets the held mode to `WIFI_AP` and sets `_doReset`;
value "sta" sets the held mode to `WIFI_STA` and keeps `_doReset` as it was;
in both cases the new held mode is written to the persisted mode key (no other
key changes), the only response is 200 "OK", and `_needConfig`, `_ssid` and
`_pass` are unchanged. -/
theorem C7_mode_ap_sta (self : WiFiManagerClass) (request : AsyncWebServerRequest) (w : World)
    (hr : request.hasArg "refresh" = false) (hm : request.hasArg "mode" = true) :
    (request.arg "mode" = "ap" →
      (webServerANYWifReq self request w).1 =
        { self with _wifiMode := WIFI_AP, _doReset := true } ∧
      (webServerANYWifReq self request w).2.prefs PREF_KEY_WIFI_MODE =
        some (PrefVal.uchar WIFI_AP) ∧
      (webServerANYWifReq self request w).2.trace =
        w.trace ++ [Event.log "Serve req", Event.prefPutUChar PREF_KEY_WIFI_MODE WIFI_AP,
          Event.send 200 "text/plain" "OK"]) ∧
    (request.arg "mode" = "sta" →
      (webServerANYWifReq self request w).1 = { self with _wifiMode := WIFI_STA } ∧
      (webServerANYWifReq self request w).2.prefs PREF_KEY_WIFI_MODE =
        some (PrefVal.uchar WIFI_STA) ∧
      (webServerANYWifReq self request w).2.trace =
        w.trace ++ [Event.log "Serve req", Event.prefPutUChar PREF_KEY_WIFI_MODE WIFI_STA,
          Event.send 200 "text/plain" "OK"]) ∧
    (∀ k, k ≠ PREF_KEY_WIFI_MODE → (webServerANYWifReq self request w).2.prefs k = w.prefs k) ∧
    (webServerANYWifReq self request w).1._needConfig = self._needConfig ∧
    (webServerANYWifReq self request w).1._ssid = self._ssid ∧
    (webServerANYWifReq self request w).1._pass = self._pass ∧
    responses (webServerANYWifReq self request w).2.trace = responses w.trace ++ [(200, "OK")] := by
  refine ⟨?_, ?_, ?_, ?_, ?_, ?_, ?_⟩
  · intro h
    simp [webServerANYWifReq, hr, hm, h, setWifiModePref, putUChar, LOG_Println, World.emit,
      AsyncWebServerRequest.send, WIFI_AP]
  · intro h
    simp [webServerANYWifReq, hr, hm, h, setWifiModePref, putUChar, LOG_Println, World.emit,
      AsyncWebServerRequest.send, WIFI_STA]
  · intro k hk
    simp [webServerANYWifReq, hr, hm, setWifiModePref, putUChar, LOG_Println, World.emit,
      AsyncWebServerRequest.send, hk]
  · simp only [webServerANYWifReq, hr, hm, Bool.false_eq_true, if_false, if_true]
    split_ifs <;> rfl
  · simp only [webServerANYWifReq, hr, hm, Bool.false_eq_true, if_false, if_true]
    split_ifs <;> rfl
  · simp only [webServerANYWifReq, hr, hm, Bool.false_eq_true, if_false, if_true]
    split_ifs <;> rfl
  · simp [webServerANYWifReq, hr, hm, setWifiModePref, putUChar, LOG_Println, World.emit,
      AsyncWebServerRequest.send, responses_append, responses]

/-- Instance of C7: `/reqwifi?mode=ap` and `/reqwifi?mode=sta` on sample state. -/
theorem C7_mode_ap_sta_witness :
    ((webServerANYWifReq (demoSelf "Home" "secret") ⟨"/reqwifi", [("mode", "ap")]⟩
        (demoWorld true WL_IDLE_STATUS connectsAtPoll2 ⟨0, []⟩)).1 =
        { demoSelf "Home" "secret" with _wifiMode := WIFI_AP, _doReset := true } ∧
      (webServerANYWifReq (demoSelf "Home" "secret") ⟨"/reqwifi", [("mode", "ap")]⟩
        (demoWorld true WL_IDLE_STATUS connectsAtPoll2 ⟨0, []⟩)).2.prefs PREF_KEY_WIFI_MODE =
        some (PrefVal.uchar WIFI_AP) ∧
      (webServerANYWifReq (demoSelf "Home" "secret") ⟨"/reqwifi", [("mode", "ap")]⟩
        (demoWorld true WL_IDLE_STATUS connectsAtPoll2 ⟨0, []⟩)).2.trace =
        (demoWorld true WL_IDLE_STATUS connectsAtPoll2 ⟨0, []⟩).trace ++
          [Event.log "Serve req", Event.prefPutUChar PREF_KEY_WIFI_MODE WIFI_AP,
            Event.send 200 "text/plain" "OK"]) ∧
    ((webServerANYWifReq (demoSelf "Home" "secret") ⟨"/reqwifi", [("mode", "sta")]⟩
        (demoWorld true WL_IDLE_STATUS connectsAtPoll2 ⟨0, []⟩)).1 =
        { demoSelf "Home" "secret" with _wifiMode := WIFI_STA } ∧
      (webServerANYWifReq (demoSelf "Home" "secret") ⟨"/reqwifi", [("mode", "sta")]⟩
        (demoWorld true WL_IDLE_STATUS connectsAtPoll2 ⟨0, []⟩)).2.prefs PREF_KEY_WIFI_MODE =
        some (PrefVal.uchar WIFI_STA) ∧
      (webServerANYWifReq (demoSelf "Home" "secret") ⟨"/reqwifi", [("mode", "sta")]⟩
        (demoWorld true WL_IDLE_STATUS connectsAtPoll2 ⟨0, []⟩)).2.trace =
        (demoWorld true WL_IDLE_STATUS connectsAtPoll2 ⟨0, []⟩).trace ++
          [Event.log "Serve req", Event.prefPutUChar PREF_KEY_WIFI_MODE WIFI_STA,
            Event.send 200 "text/plain" "OK"]) :=
  ⟨(C7_mode_ap_sta (demoSelf "Home" "secret") ⟨"/reqwifi", [("mode", "ap")]⟩
      (demoWorld true WL_IDLE_STATUS connectsAtPoll2 ⟨0, []⟩) (by decide) (by decide)).1
      (by decide),
   (C7_mode_ap_sta (demoSelf "Home" "secret") ⟨"/reqwifi", [("mode", "sta")]⟩
      (demoWorld true WL_IDLE_STATUS connectsAtPoll2 ⟨0, []⟩) (by decide) (by decide)).2.1
      (by decide)⟩

/-- C8: for every request with exactly two arguments, neither named `refresh`
nor `mode`, with values `v0` and `v1`: the handler stores `v0` in `_ssid` and
`v1` in `_pass`, sets `_needConfig` when `v0` is non-empty and keeps it as it
was when `v0` is empty, keeps `_wifiMode` and `_doReset`, and the world is the
initial one with a log call and the response 200 "OK" appended (the store is
untouched). -/
theorem C8_two_args_stage_credentials (self : WiFiManagerClass) (url : String)
    (n0 v0 n1 v1 : String) (w : World)
    (h0r : n0 ≠ "refresh") (h1r : n1 ≠ "refresh") (h0m : n0 ≠ "mode") (h1m : n1 ≠ "mode") :
    (webServerANYWifReq self ⟨url, [(n0, v0), (n1, v1)]⟩ w).1 =
      { self with _ssid := v0, _pass := v1,
                  _needConfig := if v0 ≠ "" then true else self._needConfig } ∧
    (webServerANYWifReq self ⟨url, [(n0, v0), (n1, v1)]⟩ w).2 =
      { w with trace := w.trace ++ [Event.log "Serve req", Event.send 200 "text/plain" "OK"] } ∧
    prefWrites (webServerANYWifReq self ⟨url, [(n0, v0), (n1, v1)]⟩ w).2.trace =
      prefWrites w.trace := by
  have hr : AsyncWebServerRequest.hasArg ⟨url, [(n0, v0), (n1, v1)]⟩ "refresh" = false := by
    simp [AsyncWebServerRequest.hasArg, h0r, h1r]
  have hm : AsyncWebServerRequest.hasArg ⟨url, [(n0, v0), (n1, v1)]⟩ "mode" = false := by
    simp [AsyncWebServerRequest.hasArg, h0m, h1m]
  have ha : AsyncWebServerRequest.args ⟨url, [(n0, v0), (n1, v1)]⟩ = 2 := rfl
  have e0 : AsyncWebServerRequest.argAt ⟨url, [(n0, v0), (n1, v1)]⟩ 0 = v0 := rfl
  have e1 : AsyncWebServerRequest.argAt ⟨url, [(n0, v0), (n1, v1)]⟩ 1 = v1 := rfl
  refine ⟨?_, ?_, ?_⟩
  · simp only [webServerANYWifReq, hr, hm, ha, e0, e1, Bool.false_eq_true, if_false, if_true]
    by_cases hv : v0 = ""
    · subst hv
      simp
    · have hpos := length_pos_of_ne_empty v0 hv
      simp [hpos, hv]
  · simp [webServerANYWifReq, hr, hm, ha, LOG_Println, World.emit, AsyncWebServerRequest.send]
  · simp [webServerANYWifReq, hr, hm, ha, LOG_Println, World.emit, AsyncWebServerRequest.send,
      prefWrites_append, prefWrites]

/-- Instance of C8 with ("MySSID","secret"), which sets `_needConfig`, and
with ("",""), which leaves it unset. -/
theorem C8_two_args_stage_credentials_witness :
    (webServerANYWifReq (demoSelf "" "") ⟨"/reqwifi", [("s", "MySSID"), ("p", "secret")]⟩
        (demoWorld true WL_IDLE_STATUS connectsAtPoll2 ⟨0, []⟩)).1 =
      { demoSelf "" "" with
        _ssid := "MySSID", _pass := "secret",
        _needConfig := if "MySSID" ≠ "" then true else false } ∧
    (webServerANYWifReq (demoSelf "x" "y") ⟨"/reqwifi", [("s", ""), ("p", "")]⟩
        (demoWorld true WL_IDLE_STATUS connectsAtPoll2 ⟨0, []⟩)).1 =
      { demoSelf "x" "y" with
        _ssid := "", _pass := "",
        _needConfig := if "" ≠ "" then true else false } :=
  ⟨(C8_two_args_stage_credentials (demoSelf "" "") "/reqwifi" "s" "MySSID" "p" "secret"
      (demoWorld true WL_IDLE_STATUS connectsAtPoll2 ⟨0, []⟩)
      (by decide) (by decide) (by decide) (by decide)).1,
   (C8_two_args_stage_credentials (demoSelf "x" "y") "/reqwifi" "s" "" "p" ""
      (demoWorld true WL_IDLE_STATUS connectsAtPoll2 ⟨0, []⟩)
      (by decide) (by decide) (by decide) (by decide)).1⟩

/-- C9: (1) for every request with no `refresh` argument, no `mode` argument
and an argument count other than 2, the handler leaves the instance fields as
they were and the world is the initial one with a log call and the response
403 with empty body appended (no store write, no scan); (2) for every request
the handler sends one response, and its status is 200 exactly when the request
has `refresh`, or has `mode`, or has exactly two arguments; otherwise it is
403. -/
theorem C9_unrecognised_403 (self : WiFiManagerClass) (request : AsyncWebServerRequest)
    (w : World) :
    (request.hasArg "refresh" = false → request.hasArg "mode" = false → request.args ≠ 2 →
      webServerANYWifReq self request w =
        (self, { w with trace := w.trace ++
          [Event.log "Serve req", Event.send 403 "text/plain" ""] })) ∧
    (∃ code body,
      responses (webServerANYWifReq self request w).2.trace =
        responses w.trace ++ [(code, body)] ∧
      (code = 200 ∨ code = 403) ∧
      (code = 200 ↔
        (request.hasArg "refresh" = true ∨ request.hasArg "mode" = true ∨
          request.args = 2))) := by
  constructor
  · intro hr hm ha
    have ha2 : ¬ (2 = request.args) := fun h => ha h.symm
    simp [webServerANYWifReq, hr, hm, ha2, LOG_Println, World.emit, AsyncWebServerRequest.send]
  · by_cases hr : request.hasArg "refresh" = true
    · have hcode : (200 : Nat) = 200 ↔ (request.hasArg "refresh" = true ∨
          request.hasArg "mode" = true ∨ request.args = 2) := by
        simp [hr]
      by_cases hf : (w.scans 0).ret = WIFI_SCAN_FAILED
      · refine ⟨200, "\x7b\"networks\":[]\x7d", ?_, Or.inl rfl, hcode⟩
        simp [webServerANYWifReq, hr, WiFi.scanNetworks, LOG_Println, World.emit,
          AsyncWebServerRequest.send, hf, responses_append, responses]
      · by_cases hpos : (w.scans 0).ret > 0
        · refine ⟨200, scanBody (WiFi.scanNetworks (LOG_Println "Serve req" w)).2
            (w.scans 0).ret.toNat, ?_, Or.inl rfl, hcode⟩
          simp [webServerANYWifReq, hr, WiFi.scanNetworks, LOG_Println, World.emit,
            AsyncWebServerRequest.send, hf, hpos, responses_append, responses]
        · refine ⟨200, "\x7b\"networks\":[]\x7d", ?_, Or.inl rfl, hcode⟩
          simp [webServerANYWifReq, hr, WiFi.scanNetworks, LOG_Println, World.emit,
            AsyncWebServerRequest.send, hf, hpos, responses_append, responses]
    · by_cases hm : request.hasArg "mode" = true
      · refine ⟨200, "OK", ?_, Or.inl rfl, ?_⟩
        · simp [webServerANYWifReq, hr, hm, setWifiModePref, putUChar, LOG_Println, World.emit,
            AsyncWebServerRequest.send, responses_append, responses]
        · simp [hm]
      · by_cases ha : 2 = request.args
        · refine ⟨200, "OK", ?_, Or.inl rfl, ?_⟩
          · simp [webServerANYWifReq, hr, hm, ha, LOG_Println, World.emit,
              AsyncWebServerRequest.send, responses_append, responses]
          · simp [ha.symm]
        · refine ⟨403, "", ?_, Or.inr rfl, ?_⟩
          · simp [webServerANYWifReq, hr, hm, ha, LOG_Println, World.emit,
              AsyncWebServerRequest.send, responses_append, responses]
          · have ha2 : ¬ (request.args = 2) := fun h => ha h.symm
            simp [hr, hm, ha2]

/-- Instance of C9 with no argument, with one argument and with three. -/
theorem C9_unrecognised_403_witness :
    webServerANYWifReq (demoSelf "Home" "secret") ⟨"/reqwifi", []⟩
        (demoWorld true WL_IDLE_STATUS connectsAtPoll2 ⟨2, demoNets⟩) =
      (demoSelf "Home" "secret",
        { demoWorld true WL_IDLE_STATUS connectsAtPoll2 ⟨2, demoNets⟩ with
          trace := (demoWorld true WL_IDLE_STATUS connectsAtPoll2 ⟨2, demoNets⟩).trace ++
            [Event.log "Serve req", Event.send 403 "text/plain" ""] }) ∧
    webServerANYWifReq (demoSelf "Home" "secret") ⟨"/reqwifi", [("s", "MySSID")]⟩
        (demoWorld true WL_IDLE_STATUS connectsAtPoll2 ⟨2, demoNets⟩) =
      (demoSelf "Home" "secret",
        { demoWorld true WL_IDLE_STATUS connectsAtPoll2 ⟨2, demoNets⟩ with
          trace := (demoWorld true WL_IDLE_STATUS connectsAtPoll2 ⟨2, demoNets⟩).trace ++
            [Event.log "Serve req", Event.send 403 "text/plain" ""] }) ∧
    webServerANYWifReq (demoSelf "Home" "secret")
        ⟨"/reqwifi", [("s", "MySSID"), ("p", "secret"), ("x", "1")]⟩
        (demoWorld true WL_IDLE_STATUS connectsAtPoll2 ⟨2, demoNets⟩) =
      (demoSelf "Home" "secret",
        { demoWorld true WL_IDLE_STATUS connectsAtPoll2 ⟨2, demoNets⟩ with
          trace := (demoWorld true WL_IDLE_STATUS connectsAtPoll2 ⟨2, demoNets⟩).trace ++
            [Event.log "Serve req", Event.send 403 "text/plain" ""] }) :=
  ⟨(C9_unrecognised_403 (demoSelf "Home" "secret") ⟨"/reqwifi", []⟩
      (demoWorld true WL_IDLE_STATUS connectsAtPoll2 ⟨2, demoNets⟩)).1
      (by decide) (by decide) (by decide),
   (C9_unrecognised_403 (demoSelf "Home" "secret") ⟨"/reqwifi", [("s", "MySSID")]⟩
      (demoWorld true WL_IDLE_STATUS connectsAtPoll2 ⟨2, demoNets⟩)).1
      (by decide) (by decide) (by decide),
   (C9_unrecognised_403 (demoSelf "Home" "secret")
      ⟨"/reqwifi", [("s", "MySSID"), ("p", "secret"), ("x", "1")]⟩
      (demoWorld true WL_IDLE_STATUS connectsAtPoll2 ⟨2, demoNets⟩)).1
      (by decide) (by decide) (by decide)⟩

/-! ## Reset -/

/-- C10: for every prior state, `resetSetting` sets the held mode to
`WIFI_STA`, changes no other field, writes `WIFI_STA` to the persisted mode
key, leaves every other key (so `ssid` and `pass`) as it was, and makes
exactly two calls, the store write and then the reboot. -/
theorem C10_resetSetting (self : WiFiManagerClass) (w : World) :
    (resetSetting self w).1 = { self with _wifiMode := WIFI_STA } ∧
    (resetSetting self w).2.prefs PREF_KEY_WIFI_MODE = some (PrefVal.uchar WIFI_STA) ∧
    (resetSetting self w).2.prefs PREF_KEY_WIFI_SSID = w.prefs PREF_KEY_WIFI_SSID ∧
    (resetSetting self w).2.prefs PREF_KEY_WIFI_PASS = w.prefs PREF_KEY_WIFI_PASS ∧
    (∀ k, k ≠ PREF_KEY_WIFI_MODE → (resetSetting self w).2.prefs k = w.prefs k) ∧
    (resetSetting self w).2.trace =
      w.trace ++ [Event.prefPutUChar PREF_KEY_WIFI_MODE WIFI_STA, Event.reboot] := by
  refine ⟨rfl, ?_, ?_, ?_, ?_, ?_⟩
  · simp [resetSetting, setWifiModePref, putUChar, sysReboot, World.emit, WIFI_STA]
  · have h : PREF_KEY_WIFI_SSID ≠ PREF_KEY_WIFI_MODE := by decide
    simp [resetSetting, setWifiModePref, putUChar, sysReboot, World.emit, h]
  · have h : PREF_KEY_WIFI_PASS ≠ PREF_KEY_WIFI_MODE := by decide
    simp [resetSetting, setWifiModePref, putUChar, sysReboot, World.emit, h]
  · intro k hk
    simp [resetSetting, setWifiModePref, putUChar, sysReboot, World.emit, hk]
  · simp [resetSetting, setWifiModePref, putUChar, sysReboot, World.emit, WIFI_STA]

/-! ## The refresh body as JSON -/

/-- The reader accepts the body built for a record whose strings need no
escaping, and finds its SSID. -/
theorem refresh_body_plain_ssid_parses :
    bodyListsSsids (scanBody (demoWorld true WL_IDLE_STATUS connectsAtPoll2 ⟨0, []⟩
      |> fun w => { w with lastScan := demoNets.tail }) 1) ["Home"] = true := by
  decide

/-- C6 (the code departs from the specification): for the scan of the two sample
records, the first with SSID `a"b`, the handler responds 200 with a body in
which that SSID is copied unescaped; the body is not a JSON text, so it does
not list the scanned SSIDs. -/
theorem C6_refresh_body_quote_in_ssid_not_json :
    responses (webServerANYWifReq (demoSelf "" "") ⟨"/reqwifi", [("refresh", "1")]⟩
        (demoWorld true WL_IDLE_STATUS connectsAtPoll2 ⟨2, demoNets⟩)).2.trace =
      [(200, "\x7b\"networks\":[\x7b\"ssid\":\"a\"b\",\"rssi\":\"-70\",\"chan\":\"6\",\"type\":\"3\",\"bssid\":\"AA:BB:CC:DD:EE:01\"\x7d,\x7b\"ssid\":\"Home\",\"rssi\":\"-55\",\"chan\":\"11\",\"type\":\"4\",\"bssid\":\"AA:BB:CC:DD:EE:02\"\x7d]\x7d")] ∧
    (parseJson "\x7b\"networks\":[\x7b\"ssid\":\"a\"b\",\"rssi\":\"-70\",\"chan\":\"6\",\"type\":\"3\",\"bssid\":\"AA:BB:CC:DD:EE:01\"\x7d,\x7b\"ssid\":\"Home\",\"rssi\":\"-55\",\"chan\":\"11\",\"type\":\"4\",\"bssid\":\"AA:BB:CC:DD:EE:02\"\x7d]\x7d").isNone = true ∧
    bodyListsSsids "\x7b\"networks\":[\x7b\"ssid\":\"a\"b\",\"rssi\":\"-70\",\"chan\":\"6\",\"type\":\"3\",\"bssid\":\"AA:BB:CC:DD:EE:01\"\x7d,\x7b\"ssid\":\"Home\",\"rssi\":\"-55\",\"chan\":\"11\",\"type\":\"4\",\"bssid\":\"AA:BB:CC:DD:EE:02\"\x7d]\x7d"
      (demoNets.map NetInfo.ssid) = false := by
  refine ⟨?_, ?_, ?_⟩
  · decide
  · decide
  · decide

/-! ## Store writes along the operations -/

theorem modeWrites_append (a b : List Event) :
    modeWrites (a ++ b) = modeWrites a ++ modeWrites b := by
  induction a with
  | nil => rfl
  | cons e t ih =>
    cases e <;> simp [modeWrites, ih]
    split_ifs <;> simp

theorem storeUntouched_refl (w : World) : storeUntouched w w :=
  ⟨rfl, rfl, rfl⟩

theorem storeUntouched_trans {a b c : World} (h1 : storeUntouched a b)
    (h2 : storeUntouched b c) : storeUntouched a c :=
  ⟨h2.1.trans h1.1, h2.2.1.trans h1.2.1, h2.2.2.trans h1.2.2⟩

/-- A call that is not a store write leaves the store untouched. -/
theorem storeUntouched_emit (w : World) (e : Event) (h : e.isStoreWrite = false) :
    storeUntouched w (w.emit e) := by
  refine ⟨rfl, ?_, ?_⟩
  · cases e <;> simp_all [World.emit, prefWrites_append, prefWrites, Event.isStoreWrite]
  · cases e <;> simp_all [World.emit, modeWrites_append, modeWrites, Event.isStoreWrite]

theorem storeUntouched_status (w : World) : storeUntouched w (WiFi.status w).2 :=
  storeUntouched_emit w Event.wifiStatus rfl

theorem storeUntouched_millis (w : World) : storeUntouched w (millis w).2 :=
  storeUntouched_emit w Event.millis rfl

theorem storeUntouched_log (msg : String) (w : World) : storeUntouched w (LOG_Println msg w) :=
  storeUntouched_emit w (Event.log msg) rfl

theorem storeUntouched_delay (ms : Nat) (w : World) : storeUntouched w (delay ms w) :=
  storeUntouched_emit w (Event.delay ms) rfl

/-- The polling loop writes nothing to the store. -/
theorem pollLoop_storeUntouched (T : Nat) :
    ∀ (fuel : Nat) (w w2 : World), pollLoop T fuel w = some w2 → storeUntouched w w2 := by
  intro fuel
  induction fuel with
  | zero =>
    intro w w2 h
    simp [pollLoop] at h
  | succ f ih =>
    intro w w2 h
    have hs := storeUntouched_status w
    have hm := storeUntouched_millis (WiFi.status w).2
    by_cases h1 : (WiFi.status w).1 ≠ WL_CONNECTED
    · by_cases h2 : T > (millis (WiFi.status w).2).1
      · simp only [pollLoop, h1, h2, ne_eq, not_false_eq_true, if_true] at h
        exact storeUntouched_trans hs (storeUntouched_trans hm
          (storeUntouched_trans (storeUntouched_log "." _)
            (storeUntouched_trans (storeUntouched_delay 500 _) (ih _ _ h))))
      · simp only [pollLoop, h1, h2, ne_eq, not_false_eq_true, if_true, if_false,
          Option.some.injEq] at h
        rw [← h]
        exact storeUntouched_trans hs hm
    · simp only [pollLoop, h1, if_false, Option.some.injEq] at h
      rw [← h]
      exact hs

/-- The two status checks after the loop write nothing to the store. -/
theorem afterPoll_storeUntouched (w : World) : storeUntouched w (afterPoll w).2 := by
  have hs := storeUntouched_status w
  have hs2 := storeUntouched_status (WiFi.status w).2
  simp only [afterPoll]
  split_ifs
  · exact storeUntouched_trans hs (storeUntouched_log _ _)
  · exact storeUntouched_trans hs (storeUntouched_trans hs2 (storeUntouched_log _ _))
  · exact storeUntouched_trans hs hs2

/-- `startSTA` writes nothing to the store. -/
theorem startSTA_storeUntouched (cfg : Config) (fuel : Nat) (self : WiFiManagerClass)
    (w : World) (b : Bool) (w2 : World) (h : startSTA cfg fuel self w = some (b, w2)) :
    storeUntouched w w2 := by
  have hl1 := storeUntouched_log
    ("called with SSID " ++ self._ssid ++ " and pass " ++ self._pass) w
  have hl2 := storeUntouched_log ("using " ++ self._ssid ++ " and pass " ++ self._pass)
    (LOG_Println ("called with SSID " ++ self._ssid ++ " and pass " ++ self._pass) w)
  have hmode := storeUntouched_emit
    (LOG_Println ("using " ++ self._ssid ++ " and pass " ++ self._pass)
      (LOG_Println ("called with SSID " ++ self._ssid ++ " and pass " ++ self._pass) w))
    (Event.wifiMode WIFI_STA) rfl
  by_cases h1 : self._ssid.length > 0
  · by_cases h2 : (WiFi.mode WIFI_STA
        (LOG_Println ("using " ++ self._ssid ++ " and pass " ++ self._pass)
          (LOG_Println ("called with SSID " ++ self._ssid ++ " and pass " ++ self._pass)
            w))).1 = true
    · have hbegin := storeUntouched_emit (WiFi.mode WIFI_STA
          (LOG_Println ("using " ++ self._ssid ++ " and pass " ++ self._pass)
            (LOG_Println ("called with SSID " ++ self._ssid ++ " and pass " ++ self._pass)
              w))).2
        (Event.wifiBegin self._ssid (if self._pass.length > 0 then some self._pass else none))
        rfl
      have h012 := storeUntouched_trans hl1 (storeUntouched_trans hl2
        (storeUntouched_trans hmode hbegin))
      by_cases h3 : WL_CONNECT_FAILED = (WiFi.begin self._ssid
          (if self._pass.length > 0 then some self._pass else none)
          (WiFi.mode WIFI_STA
            (LOG_Println ("using " ++ self._ssid ++ " and pass " ++ self._pass)
              (LOG_Println ("called with SSID " ++ self._ssid ++ " and pass " ++ self._pass)
                w))).2).1
      · simp only [startSTA, h1, h2, h3, if_true, Bool.not_true, Bool.false_eq_true, if_false,
          Option.some.injEq, Prod.mk.injEq] at h
        rw [← h.2]
        exact h012
      · simp only [startSTA, h1, h2, h3, if_true, Bool.not_true, Bool.false_eq_true, if_false,
          Option.map_eq_some'] at h
        obtain ⟨w1, hw1, hw2⟩ := h
        have hp := pollLoop_storeUntouched _ _ _ _ hw1
        have ha := afterPoll_storeUntouched w1
        rw [hw2] at ha
        exact storeUntouched_trans h012 (storeUntouched_trans
          (storeUntouched_millis _) (storeUntouched_trans hp ha))
    · simp only [startSTA, h1, h2, if_true, Bool.not_eq_true, Bool.not_false,
        Option.some.injEq, Prod.mk.injEq] at h
      rw [← h.2]
      exact storeUntouched_trans hl1 (storeUntouched_trans hl2 hmode)
  · simp only [startSTA, h1, if_false, Option.some.injEq, Prod.mk.injEq] at h
    rw [← h.2]
    exact hl1

/-! ## The portal loop -/

/-- The block `if(_needConfig)` of the loop body, with `w2` the world left by
the connection attempt `startSTA` made with the staged `_ssid` and `_pass`:
(a) `_needConfig` set and the attempt succeeds: the held mode becomes
`WIFI_STA`, `_doReset` is marked, `_needConfig` is cleared, and the store
holds (`WIFI_STA`, staged ssid, staged passphrase), written in the order ssid,
pass, mode; (b) `_needConfig` set and the attempt fails: only `_needConfig`
changes (cleared) and nothing is written to the store; (c) `_needConfig`
unset: no attempt is made, fields and world are unchanged. -/
theorem loopConfigPart_block (cfg : Config) (fuel : Nat) (self : WiFiManagerClass)
    (w : World) :
    (self._needConfig = true → ∀ w2,
      startSTA cfg fuel self (LOG_Println "test new connection" w) = some (true, w2) →
      ∃ w3, loopConfigPart cfg fuel self w =
          some ({ self with _wifiMode := WIFI_STA, _doReset := true, _needConfig := false },
            w3) ∧
        w3.prefs PREF_KEY_WIFI_MODE = some (PrefVal.uchar WIFI_STA) ∧
        w3.prefs PREF_KEY_WIFI_SSID = some (PrefVal.str self._ssid) ∧
        w3.prefs PREF_KEY_WIFI_PASS = some (PrefVal.str self._pass) ∧
        w3.trace = w2.trace ++
          [Event.prefPutString PREF_KEY_WIFI_SSID self._ssid,
           Event.prefPutString PREF_KEY_WIFI_PASS self._pass,
           Event.prefPutUChar PREF_KEY_WIFI_MODE WIFI_STA]) ∧
    (self._needConfig = true → ∀ w2,
      startSTA cfg fuel self (LOG_Println "test new connection" w) = some (false, w2) →
      loopConfigPart cfg fuel self w = some ({ self with _needConfig := false }, w2) ∧
        w2.prefs = w.prefs ∧ prefWrites w2.trace = prefWrites w.trace) ∧
    (self._needConfig = false → loopConfigPart cfg fuel self w = some (self, w)) := by
  refine ⟨?_, ?_, ?_⟩
  · intro hn w2 hsta
    refine ⟨setWifiModePref PREF_KEY_WIFI_MODE (WIFI_STA % 256)
      (setStringPref PREF_KEY_WIFI_PASS self._pass
        (setStringPref PREF_KEY_WIFI_SSID self._ssid w2)), ?_, ?_, ?_, ?_, ?_⟩
    · simp only [loopConfigPart, hn, if_true, hsta]
    · simp [setWifiModePref, setStringPref, putUChar, putString, WIFI_STA]
    · have h : PREF_KEY_WIFI_SSID ≠ PREF_KEY_WIFI_MODE := by decide
      have h2 : PREF_KEY_WIFI_SSID ≠ PREF_KEY_WIFI_PASS := by decide
      simp [setWifiModePref, setStringPref, putUChar, putString, h, h2]
    · have h : PREF_KEY_WIFI_PASS ≠ PREF_KEY_WIFI_MODE := by decide
      simp [setWifiModePref, setStringPref, putUChar, putString, h]
    · simp [setWifiModePref, setStringPref, putUChar, putString, WIFI_STA]
  · intro hn w2 hsta
    have hst := storeUntouched_trans (storeUntouched_log "test new connection" w)
      (startSTA_storeUntouched cfg fuel self _ false w2 hsta)
    refine ⟨?_, hst.1, hst.2.1⟩
    simp [loopConfigPart, hn, hsta]
  · intro hn
    simp [loopConfigPart, hn]

/-- An instance: staged ("Home","secret") with the link connecting at the
third poll; the same with a link that stays disconnected; and a pass with
`_needConfig` unset. -/
theorem loopConfigPart_block_instance :
    (∃ w3, loopConfigPart demoCfg 3 { demoSelf "Home" "secret" with _needConfig := true }
        (demoWorld true WL_IDLE_STATUS connectsAtPoll2 ⟨0, []⟩) =
        some ({ demoSelf "Home" "secret" with _doReset := true }, w3) ∧
      w3.prefs PREF_KEY_WIFI_MODE = some (PrefVal.uchar WIFI_STA) ∧
      w3.prefs PREF_KEY_WIFI_SSID = some (PrefVal.str "Home") ∧
      w3.prefs PREF_KEY_WIFI_PASS = some (PrefVal.str "secret")) ∧
    (∃ w2, loopConfigPart demoCfg 20 { demoSelf "Home" "secret" with _needConfig := true }
        (demoWorld true WL_IDLE_STATUS (fun _ => WL_DISCONNECTED) ⟨0, []⟩) =
        some (demoSelf "Home" "secret", w2) ∧
      w2.prefs = (demoWorld true WL_IDLE_STATUS (fun _ => WL_DISCONNECTED) ⟨0, []⟩).prefs) ∧
    loopConfigPart demoCfg 0 (demoSelf "Home" "secret")
        (demoWorld true WL_IDLE_STATUS connectsAtPoll2 ⟨0, []⟩) =
      some (demoSelf "Home" "secret", demoWorld true WL_IDLE_STATUS connectsAtPoll2 ⟨0, []⟩) :=
  ⟨(let ⟨w3, h1, h2, h3, h4, _⟩ :=
      (loopConfigPart_block demoCfg 3 { demoSelf "Home" "secret" with _needConfig := true }
        (demoWorld true WL_IDLE_STATUS connectsAtPoll2 ⟨0, []⟩)).1 rfl _ rfl
    ⟨w3, h1, h2, h3, h4⟩),
   ⟨_, ((loopConfigPart_block demoCfg 20
        { demoSelf "Home" "secret" with _needConfig := true }
        (demoWorld true WL_IDLE_STATUS (fun _ => WL_DISCONNECTED) ⟨0, []⟩)).2.1 rfl _ rfl).1,
      ((loopConfigPart_block demoCfg 20
        { demoSelf "Home" "secret" with _needConfig := true }
        (demoWorld true WL_IDLE_STATUS (fun _ => WL_DISCONNECTED) ⟨0, []⟩)).2.1 rfl _ rfl).2.1⟩,
   (loopConfigPart_block demoCfg 0 (demoSelf "Home" "secret")
      (demoWorld true WL_IDLE_STATUS connectsAtPoll2 ⟨0, []⟩)).2.2 rfl⟩

/-- C11 (as amended): for one whole pass of the portal loop, with `w2` the
world left by the connection attempt `startSTA` made with the staged `_ssid`
and `_pass`.  (a) `_needConfig` set and the attempt succeeds: the held mode
becomes `WIFI_STA`, the store holds (`WIFI_STA`, staged ssid, staged
passphrase), and the `_doReset` marked by the attempt is consumed by the reset
check of the same pass, which clears it and calls reboot.  (b) `_needConfig`
set and the attempt fails: no key is written, the held mode is unchanged, and
the reset check acts on `_doReset` as it was at the start: if set, it is
cleared and reboot is called, if unset, it stays unset and the pass ends with
the DNS call.  In (a) and (b) `_needConfig` is false afterwards.
(c) `_needConfig` unset: no attempt is made and nothing is written; only the
reset check and the DNS call happen. -/
theorem C11_loop_iteration (cfg : Config) (fuel : Nat) (self : WiFiManagerClass)
    (w : World) :
    (self._needConfig = true → ∀ w2,
      startSTA cfg fuel self (LOG_Println "test new connection" w) = some (true, w2) →
      ∃ w3, loopCaptiveIter cfg fuel self w =
          some (LoopStep.rebooted
            { self with _wifiMode := WIFI_STA, _doReset := false, _needConfig := false }
            w3) ∧
        w3.prefs PREF_KEY_WIFI_MODE = some (PrefVal.uchar WIFI_STA) ∧
        w3.prefs PREF_KEY_WIFI_SSID = some (PrefVal.str self._ssid) ∧
        w3.prefs PREF_KEY_WIFI_PASS = some (PrefVal.str self._pass) ∧
        w3.trace = w2.trace ++
          [Event.prefPutString PREF_KEY_WIFI_SSID self._ssid,
           Event.prefPutString PREF_KEY_WIFI_PASS self._pass,
           Event.prefPutUChar PREF_KEY_WIFI_MODE WIFI_STA,
           Event.reboot]) ∧
    (self._needConfig = true → ∀ w2,
      startSTA cfg fuel self (LOG_Println "test new connection" w) = some (false, w2) →
      loopCaptiveIter cfg fuel self w =
        some (if self._doReset = true then
            LoopStep.rebooted { self with _needConfig := false, _doReset := false }
              { w2 with trace := w2.trace ++ [Event.reboot] }
          else
            LoopStep.next { self with _needConfig := false }
              { w2 with trace := w2.trace ++ [Event.dnsProcessNextRequest] }) ∧
      w2.prefs = w.prefs ∧ prefWrites w2.trace = prefWrites w.trace) ∧
    (self._needConfig = false →
      loopCaptiveIter cfg fuel self w =
        some (if self._doReset = true then
            LoopStep.rebooted { self with _doReset := false }
              { w with trace := w.trace ++ [Event.reboot] }
          else
            LoopStep.next self
              { w with trace := w.trace ++ [Event.dnsProcessNextRequest] })) := by
  obtain ⟨ha, hb, hc⟩ := loopConfigPart_block cfg fuel self w
  refine ⟨?_, ?_, ?_⟩
  · intro hn w2 hsta
    obtain ⟨w3, h1, h2, h3, h4, h5⟩ := ha hn w2 hsta
    refine ⟨{ w3 with trace := w3.trace ++ [Event.reboot] }, ?_, h2, h3, h4, ?_⟩
    · simp [loopCaptiveIter, h1, loopResetPart, sysReboot, World.emit]
    · simp [h5]
  · intro hn w2 hsta
    obtain ⟨h1, h2, h3⟩ := hb hn w2 hsta
    refine ⟨?_, h2, h3⟩
    by_cases hd : self._doReset = true
    · simp [loopCaptiveIter, h1, loopResetPart, hd, sysReboot, World.emit]
    · simp [loopCaptiveIter, h1, loopResetPart, hd, World.emit]
  · intro hn
    by_cases hd : self._doReset = true
    · simp [loopCaptiveIter, hc hn, loopResetPart, hd, sysReboot, World.emit]
    · simp [loopCaptiveIter, hc hn, loopResetPart, hd, World.emit]

/-- Instance of C11 (as amended): staged ("Home","secret") with the link
connecting at the third poll; a failed attempt with `_doReset` set, and with
`_doReset` unset; and a pass with `_needConfig` unset. -/
theorem C11_loop_iteration_witness :
    (∃ w3, loopCaptiveIter demoCfg 3 { demoSelf "Home" "secret" with _needConfig := true }
        (demoWorld true WL_IDLE_STATUS connectsAtPoll2 ⟨0, []⟩) =
        some (LoopStep.rebooted (demoSelf "Home" "secret") w3) ∧
      w3.prefs PREF_KEY_WIFI_MODE = some (PrefVal.uchar WIFI_STA) ∧
      w3.prefs PREF_KEY_WIFI_SSID = some (PrefVal.str "Home") ∧
      w3.prefs PREF_KEY_WIFI_PASS = some (PrefVal.str "secret")) ∧
    (∃ w2, loopCaptiveIter demoCfg 20
        { demoSelf "Home" "secret" with _needConfig := true, _doReset := true }
        (demoWorld true WL_IDLE_STATUS (fun _ => WL_DISCONNECTED) ⟨0, []⟩) =
        some (LoopStep.rebooted (demoSelf "Home" "secret") w2)) ∧
    (∃ w2, loopCaptiveIter demoCfg 20 { demoSelf "Home" "secret" with _needConfig := true }
        (demoWorld true WL_IDLE_STATUS (fun _ => WL_DISCONNECTED) ⟨0, []⟩) =
        some (LoopStep.next (demoSelf "Home" "secret") w2)) ∧
    loopCaptiveIter demoCfg 0 (demoSelf "Home" "secret")
        (demoWorld true WL_IDLE_STATUS connectsAtPoll2 ⟨0, []⟩) =
      some (LoopStep.next (demoSelf "Home" "secret")
        { demoWorld true WL_IDLE_STATUS connectsAtPoll2 ⟨0, []⟩ with
          trace := (demoWorld true WL_IDLE_STATUS connectsAtPoll2 ⟨0, []⟩).trace ++
            [Event.dnsProcessNextRequest] }) :=
  ⟨(let ⟨w3, h1, h2, h3, h4, _⟩ :=
      (C11_loop_iteration demoCfg 3 { demoSelf "Home" "secret" with _needConfig := true }
        (demoWorld true WL_IDLE_STATUS connectsAtPoll2 ⟨0, []⟩)).1 rfl _ rfl
    ⟨w3, h1, h2, h3, h4⟩),
   ⟨_, ((C11_loop_iteration demoCfg 20
        { demoSelf "Home" "secret" with _needConfig := true, _doReset := true }
        (demoWorld true WL_IDLE_STATUS (fun _ => WL_DISCONNECTED) ⟨0, []⟩)).2.1 rfl _ rfl).1⟩,
   ⟨_, ((C11_loop_iteration demoCfg 20
        { demoSelf "Home" "secret" with _needConfig := true }
        (demoWorld true WL_IDLE_STATUS (fun _ => WL_DISCONNECTED) ⟨0, []⟩)).2.1 rfl _ rfl).1⟩,
   (C11_loop_iteration demoCfg 0 (demoSelf "Home" "secret")
      (demoWorld true WL_IDLE_STATUS connectsAtPoll2 ⟨0, []⟩)).2.2 rfl⟩

/-- C11 (counterexample): after a boot into the portal, `/reqwifi?mode=ap`
(which sets `_doReset`) and a credential submission (which sets
`_needConfig`), the next pass of the loop makes a connection attempt that
fails (nothing but the mode key of the earlier request has been written), and
yet `_doReset`, set at the start of the pass, is cleared and the device
reboots: over the pass a failed attempt does not leave `_doReset` unchanged. -/
theorem C11_failed_attempt_with_doReset_set_clears_it :
    (run demoCfg 20
        [Op.boot, Op.request ⟨"/reqwifi", [("mode", "ap")]⟩,
          Op.request ⟨"/reqwifi", [("s", "Home"), ("p", "secret")]⟩]
        { phase := Phase.down, self := demoSelf "" "",
          w := demoWorld true WL_IDLE_STATUS (fun _ => WL_DISCONNECTED) ⟨0, []⟩ }).map
        (fun s => (s.phase, s.self._needConfig, s.self._doReset, prefWrites s.w.trace)) =
      some (Phase.portal, true, true, [PREF_KEY_WIFI_MODE]) ∧
    (run demoCfg 20
        [Op.boot, Op.request ⟨"/reqwifi", [("mode", "ap")]⟩,
          Op.request ⟨"/reqwifi", [("s", "Home"), ("p", "secret")]⟩, Op.loopIter]
        { phase := Phase.down, self := demoSelf "" "",
          w := demoWorld true WL_IDLE_STATUS (fun _ => WL_DISCONNECTED) ⟨0, []⟩ }).map
        (fun s => (s.phase, s.self._needConfig, s.self._doReset, prefWrites s.w.trace)) =
      some (Phase.down, false, false, [PREF_KEY_WIFI_MODE]) := by
  refine ⟨by decide, by decide⟩

/-! ## Boot -/

/-- The store reads and the dispatch of `begin`: the three keys are read once
each, in the order ssid, pass, mode, and the mode read decides the path. -/
theorem begin_eq (cfg : Config) (fuel : Nat) (self : WiFiManagerClass) (w : World) :
    begin cfg fuel self w =
      (if WIFI_AP = (getWifiModePref PREF_KEY_WIFI_MODE w).1 then
        some (BootOutcome.accessPoint
          { self with
            _ssid := (getStringPref PREF_KEY_WIFI_SSID w).1
            _pass := (getStringPref PREF_KEY_WIFI_PASS w).1
            _wifiMode := (getWifiModePref PREF_KEY_WIFI_MODE w).1 }
          (startAP cfg { w with trace := w.trace ++
            [Event.spiffsBegin, Event.prefBegin cfg.PREF_WIFI_NAMESPACE,
             Event.prefGetString PREF_KEY_WIFI_SSID, Event.prefGetString PREF_KEY_WIFI_PASS,
             Event.prefGetUChar PREF_KEY_WIFI_MODE] }))
      else if WIFI_STA = (getWifiModePref PREF_KEY_WIFI_MODE w).1 then
        match startSTA cfg fuel
          { self with
            _ssid := (getStringPref PREF_KEY_WIFI_SSID w).1
            _pass := (getStringPref PREF_KEY_WIFI_PASS w).1
            _wifiMode := (getWifiModePref PREF_KEY_WIFI_MODE w).1 }
          { w with trace := w.trace ++
            [Event.spiffsBegin, Event.prefBegin cfg.PREF_WIFI_NAMESPACE,
             Event.prefGetString PREF_KEY_WIFI_SSID, Event.prefGetString PREF_KEY_WIFI_PASS,
             Event.prefGetUChar PREF_KEY_WIFI_MODE] } with
        | none => none
        | some (ok, w2) =>
          if !ok then
            some (BootOutcome.portal
              { self with
                _ssid := (getStringPref PREF_KEY_WIFI_SSID w).1
                _pass := (getStringPref PREF_KEY_WIFI_PASS w).1
                _wifiMode := (getWifiModePref PREF_KEY_WIFI_MODE w).1 }
              (beginCaptive cfg w2))
          else
            some (BootOutcome.station
              { self with
                _ssid := (getStringPref PREF_KEY_WIFI_SSID w).1
                _pass := (getStringPref PREF_KEY_WIFI_PASS w).1
                _wifiMode := (getWifiModePref PREF_KEY_WIFI_MODE w).1 }
              w2)
      else
        some (BootOutcome.noMode
          { self with
            _ssid := (getStringPref PREF_KEY_WIFI_SSID w).1
            _pass := (getStringPref PREF_KEY_WIFI_PASS w).1
            _wifiMode := (getWifiModePref PREF_KEY_WIFI_MODE w).1 }
          { w with trace := w.trace ++
            [Event.spiffsBegin, Event.prefBegin cfg.PREF_WIFI_NAMESPACE,
             Event.prefGetString PREF_KEY_WIFI_SSID, Event.prefGetString PREF_KEY_WIFI_PASS,
             Event.prefGetUChar PREF_KEY_WIFI_MODE] })) := by
  simp only [begin, getWifiModePref, getStringPref, getUChar, getString, World.emit,
    List.append_assoc, List.singleton_append, List.cons_append, List.nil_append]

/-- The calls of `startAP`, appended to the trace. -/
theorem startAP_eq (cfg : Config) (w : World) :
    startAP cfg w = { w with trace := w.trace ++ startAPCalls cfg } := by
  simp [startAP, startAPCalls, LOG_Println, delay, World.emit]

/-- The calls of `beginCaptive`, appended to the trace. -/
theorem beginCaptive_eq (cfg : Config) (w : World) :
    beginCaptive cfg w = { w with trace := w.trace ++ beginCaptiveCalls cfg } := by
  simp [beginCaptive, beginCaptiveCalls, startAP_eq, LOG_Println, World.emit]

/-- C12: `begin` reads ssid, pass and mode once each and dispatches on the
mode read.  (1) Stored mode `WIFI_AP`: it makes the calls of `startAP` (the
last of which is the argument-less `WiFi.begin()`) and nothing else: no
`startSTA`, no portal.  (2) Stored mode `WIFI_STA`, or no
stored mode: it calls `startSTA` with the stored ssid and passphrase; when
that returns true `begin` ends with the device as station, when it returns
false `begin` goes through `beginCaptive` into the portal loop, and it has no
result only while `startSTA` has none.  (3) After a `/reqwifi` request with
`mode=ap` the store makes the next `begin` take path (1). -/
theorem C12_begin_dispatch (cfg : Config) (fuel : Nat) (self : WiFiManagerClass) (w : World) :
    (w.prefs PREF_KEY_WIFI_MODE = some (PrefVal.uchar WIFI_AP) →
      (loadedSelf self w)._wifiMode = WIFI_AP ∧
      begin cfg fuel self w = some (BootOutcome.accessPoint (loadedSelf self w)
        { w with trace := w.trace ++ bootReads cfg ++ startAPCalls cfg })) ∧
    ((w.prefs PREF_KEY_WIFI_MODE = some (PrefVal.uchar WIFI_STA) ∨
        w.prefs PREF_KEY_WIFI_MODE = none) →
      (loadedSelf self w)._wifiMode = WIFI_STA ∧
      (∀ w2, startSTA cfg fuel (loadedSelf self w)
          { w with trace := w.trace ++ bootReads cfg } = some (true, w2) →
        begin cfg fuel self w = some (BootOutcome.station (loadedSelf self w) w2)) ∧
      (∀ w2, startSTA cfg fuel (loadedSelf self w)
          { w with trace := w.trace ++ bootReads cfg } = some (false, w2) →
        begin cfg fuel self w = some (BootOutcome.portal (loadedSelf self w)
          { w2 with trace := w2.trace ++ beginCaptiveCalls cfg })) ∧
      (startSTA cfg fuel (loadedSelf self w)
          { w with trace := w.trace ++ bootReads cfg } = none →
        begin cfg fuel self w = none)) ∧
    (∀ (selfH : WiFiManagerClass) (request : AsyncWebServerRequest) (wH : World),
      request.hasArg "refresh" = false → request.hasArg "mode" = true →
      request.arg "mode" = "ap" →
      w.prefs = (webServerANYWifReq selfH request wH).2.prefs →
      begin cfg fuel self w = some (BootOutcome.accessPoint (loadedSelf self w)
        { w with trace := w.trace ++ bootReads cfg ++ startAPCalls cfg })) := by
  have hAP : w.prefs PREF_KEY_WIFI_MODE = some (PrefVal.uchar WIFI_AP) →
      (loadedSelf self w)._wifiMode = WIFI_AP ∧
      begin cfg fuel self w = some (BootOutcome.accessPoint (loadedSelf self w)
        { w with trace := w.trace ++ bootReads cfg ++ startAPCalls cfg }) := by
    intro hm
    have hmode : (getWifiModePref PREF_KEY_WIFI_MODE w).1 = WIFI_AP := by
      simp [getWifiModePref, getUChar, hm]
    refine ⟨hmode, ?_⟩
    rw [begin_eq]
    simp only [hmode, if_true, startAP_eq, loadedSelf, bootReads, List.append_assoc]
  refine ⟨hAP, ?_, ?_⟩
  · intro hm
    have hmode : (getWifiModePref PREF_KEY_WIFI_MODE w).1 = WIFI_STA := by
      rcases hm with hm | hm <;> simp [getWifiModePref, getUChar, hm]
    have hne : ¬ (WIFI_AP = WIFI_STA) := by decide
    refine ⟨hmode, ?_, ?_, ?_⟩
    · intro w2 h
      rw [begin_eq]
      simp only [loadedSelf, bootReads, hmode] at h
      simp only [hmode, hne, if_false, if_true, h, loadedSelf, Bool.not_true,
        Bool.false_eq_true]
    · intro w2 h
      rw [begin_eq]
      simp only [loadedSelf, bootReads, hmode] at h
      simp only [hmode, hne, if_false, if_true, h, loadedSelf, Bool.not_false,
        beginCaptive_eq]
    · intro h
      rw [begin_eq]
      simp only [loadedSelf, bootReads, hmode] at h
      simp only [hmode, hne, if_false, if_true, h]
  · intro selfH request wH hr hmd hap hw
    apply (hAP _).2
    rw [hw]
    simp [webServerANYWifReq, hr, hmd, hap, setWifiModePref, putUChar, LOG_Println, World.emit,
      AsyncWebServerRequest.send, WIFI_AP]

/-- Instance of C12: stored mode `WIFI_AP`; stored ("Home","secret") with the
link connecting at the third poll, and with a link that stays disconnected;
and the store left by `/reqwifi?mode=ap`. -/
theorem C12_begin_dispatch_witness :
    begin demoCfg 0 (demoSelf "" "") (demoStoredWorld WIFI_AP connectsAtPoll2) =
      some (BootOutcome.accessPoint
        (loadedSelf (demoSelf "" "") (demoStoredWorld WIFI_AP connectsAtPoll2))
        { demoStoredWorld WIFI_AP connectsAtPoll2 with
          trace := (demoStoredWorld WIFI_AP connectsAtPoll2).trace ++ bootReads demoCfg ++
            startAPCalls demoCfg }) ∧
    (∃ w2, begin demoCfg 3 (demoSelf "" "") (demoStoredWorld WIFI_STA connectsAtPoll2) =
      some (BootOutcome.station
        (loadedSelf (demoSelf "" "") (demoStoredWorld WIFI_STA connectsAtPoll2)) w2)) ∧
    (∃ w2, begin demoCfg 20 (demoSelf "" "")
        (demoStoredWorld WIFI_STA (fun _ => WL_DISCONNECTED)) =
      some (BootOutcome.portal
        (loadedSelf (demoSelf "" "") (demoStoredWorld WIFI_STA (fun _ => WL_DISCONNECTED)))
        w2)) ∧
    (∃ w2, begin demoCfg 0 (demoSelf "" "")
        (webServerANYWifReq (demoSelf "Home" "secret") ⟨"/reqwifi", [("mode", "ap")]⟩
          (demoWorld true WL_IDLE_STATUS connectsAtPoll2 ⟨0, []⟩)).2 =
      some (BootOutcome.accessPoint
        (loadedSelf (demoSelf "" "")
          (webServerANYWifReq (demoSelf "Home" "secret") ⟨"/reqwifi", [("mode", "ap")]⟩
            (demoWorld true WL_IDLE_STATUS connectsAtPoll2 ⟨0, []⟩)).2) w2)) :=
  ⟨((C12_begin_dispatch demoCfg 0 (demoSelf "" "")
      (demoStoredWorld WIFI_AP connectsAtPoll2)).1 rfl).2,
   ⟨_, ((C12_begin_dispatch demoCfg 3 (demoSelf "" "")
      (demoStoredWorld WIFI_STA connectsAtPoll2)).2.1 (Or.inl rfl)).2.1 _ rfl⟩,
   ⟨_, ((C12_begin_dispatch demoCfg 20 (demoSelf "" "")
      (demoStoredWorld WIFI_STA (fun _ => WL_DISCONNECTED))).2.1 (Or.inl rfl)).2.2.1 _ rfl⟩,
   ⟨_, (C12_begin_dispatch demoCfg 0 (demoSelf "" "")
      (webServerANYWifReq (demoSelf "Home" "secret") ⟨"/reqwifi", [("mode", "ap")]⟩
        (demoWorld true WL_IDLE_STATUS connectsAtPoll2 ⟨0, []⟩)).2).2.2
      (demoSelf "Home" "secret") ⟨"/reqwifi", [("mode", "ap")]⟩
      (demoWorld true WL_IDLE_STATUS connectsAtPoll2 ⟨0, []⟩)
      (by decide) (by decide) (by decide) rfl⟩⟩

/-- C13: when the stored mode is `WIFI_STA` or absent and the stored SSID is
empty or absent, `begin` (for every fuel) ends in the portal, and the calls it
has made are: its store reads, the one log call of `startSTA`, and the calls
of `beginCaptive`; no `WiFi.mode` and no `WiFi.begin(ssid, pass)` among them,
and no radio operation before `beginCaptive` (whose `startAP` ends with the
argument-less `WiFi.begin()`). -/
theorem C13_begin_empty_ssid_portal (cfg : Config) (fuel : Nat) (self : WiFiManagerClass)
    (w : World)
    (hm : w.prefs PREF_KEY_WIFI_MODE = some (PrefVal.uchar WIFI_STA) ∨
      w.prefs PREF_KEY_WIFI_MODE = none)
    (hs : w.prefs PREF_KEY_WIFI_SSID = some (PrefVal.str "") ∨
      w.prefs PREF_KEY_WIFI_SSID = none) :
    (loadedSelf self w)._ssid = "" ∧
    begin cfg fuel self w = some (BootOutcome.portal (loadedSelf self w)
      { w with trace := w.trace ++ bootReads cfg ++
        [Event.log ("called with SSID " ++ "" ++ " and pass " ++ (loadedSelf self w)._pass)] ++
        beginCaptiveCalls cfg }) ∧
    (bootReads cfg ++
      [Event.log ("called with SSID " ++ "" ++ " and pass " ++
        (loadedSelf self w)._pass)]).filter Event.isRadioOp = [] ∧
    Event.wifiMode WIFI_STA ∉ beginCaptiveCalls cfg ∧
    (∀ ssid pass, Event.wifiBegin ssid pass ∉ beginCaptiveCalls cfg) := by
  have hmode : (getWifiModePref PREF_KEY_WIFI_MODE w).1 = WIFI_STA := by
    rcases hm with hm | hm <;> simp [getWifiModePref, getUChar, hm]
  have hssid : (getStringPref PREF_KEY_WIFI_SSID w).1 = "" := by
    rcases hs with hs | hs <;> simp [getStringPref, getString, hs]
  have hne : ¬ (WIFI_AP = WIFI_STA) := by decide
  refine ⟨hssid, ?_, ?_, ?_, ?_⟩
  · rw [begin_eq]
    simp only [hmode, hne, if_false, if_true, startSTA, hssid, loadedSelf, bootReads,
      beginCaptive_eq, LOG_Println, World.emit, String.length, List.length_nil,
      gt_iff_lt, lt_self_iff_false, Bool.not_false, List.append_assoc]
  · simp [bootReads, Event.isRadioOp]
  · simp [beginCaptiveCalls, startAPCalls]
  · intro ssid pass
    simp [beginCaptiveCalls, startAPCalls]

/-- Instance of C13: an empty store (first boot). -/
theorem C13_begin_empty_ssid_portal_witness :
    begin demoCfg 0 (demoSelf "x" "y") (demoWorld true WL_IDLE_STATUS connectsAtPoll2 ⟨0, []⟩) =
      some (BootOutcome.portal
        (loadedSelf (demoSelf "x" "y") (demoWorld true WL_IDLE_STATUS connectsAtPoll2 ⟨0, []⟩))
        { demoWorld true WL_IDLE_STATUS connectsAtPoll2 ⟨0, []⟩ with
          trace := (demoWorld true WL_IDLE_STATUS connectsAtPoll2 ⟨0, []⟩).trace ++
            bootReads demoCfg ++
            [Event.log ("called with SSID " ++ "" ++ " and pass " ++
              (loadedSelf (demoSelf "x" "y")
                (demoWorld true WL_IDLE_STATUS connectsAtPoll2 ⟨0, []⟩))._pass)] ++
            beginCaptiveCalls demoCfg }) :=
  (C13_begin_empty_ssid_portal demoCfg 0 (demoSelf "x" "y")
    (demoWorld true WL_IDLE_STATUS connectsAtPoll2 ⟨0, []⟩) (Or.inr rfl) (Or.inr rfl)).2.1

/-! ## The result of `startSTA` after the polling loop -/

/-- The polling loop ends at the first poll `k` that reads `WL_CONNECTED` or
whose clock read has reached the deadline; it has then consumed `k + 1` status
answers. -/
theorem pollLoop_exit (T : Nat) :
    ∀ (k : Nat) (w : World) (fuel : Nat),
      (∀ j, j < k → w.statusReads j ≠ WL_CONNECTED ∧ w.millisReads j % 2 ^ 32 < T) →
      (w.statusReads k = WL_CONNECTED ∨ T ≤ w.millisReads k % 2 ^ 32) → k + 1 ≤ fuel →
      ∃ w2, pollLoop T fuel w = some w2 ∧
        ∀ j, w2.statusReads j = w.statusReads (j + (k + 1)) := by
  intro k
  induction k with
  | zero =>
    intro w fuel _ hk hf
    obtain ⟨f, rfl⟩ : ∃ f, fuel = f + 1 := ⟨fuel - 1, by omega⟩
    by_cases h1 : (WiFi.status w).1 ≠ WL_CONNECTED
    · have h2 : ¬ (T > (millis (WiFi.status w).2).1) := by
        rcases hk with hk | hk
        · exact absurd hk h1
        · simpa [millis, WiFi.status] using hk
      refine ⟨(millis (WiFi.status w).2).2, ?_, ?_⟩
      · simp only [pollLoop, h1, h2, ne_eq, not_false_eq_true, if_true, if_false]
      · intro j
        simp [millis, WiFi.status]
    · refine ⟨(WiFi.status w).2, ?_, ?_⟩
      · simp only [pollLoop, h1, if_false]
      · intro j
        simp [WiFi.status]
  | succ k ih =>
    intro w fuel hlt hk hf
    obtain ⟨f, rfl⟩ : ∃ f, fuel = f + 1 := ⟨fuel - 1, by omega⟩
    have h0 := hlt 0 (Nat.succ_pos k)
    obtain ⟨w2, hw2, hs⟩ := ih (delay 500 (LOG_Println "." (millis (WiFi.status w).2).2)) f
      (by
        intro j hj
        have := hlt (j + 1) (by omega)
        simpa [delay, LOG_Println, World.emit, millis, WiFi.status] using this)
      (by simpa [delay, LOG_Println, World.emit, millis, WiFi.status] using hk)
      (by omega)
    refine ⟨w2, ?_, ?_⟩
    · have h1 : (WiFi.status w).1 ≠ WL_CONNECTED := h0.1
      have h2 : T > (millis (WiFi.status w).2).1 := h0.2
      rw [pollLoop]
      simp only [h1, h2, ne_eq, not_false_eq_true, if_true]
      exact hw2
    · intro j
      rw [hs j]
      simp only [delay, LOG_Println, World.emit, millis, WiFi.status]
      rfl

/-- C16: for a non-empty SSID, a successful mode switch and a join that does
not fail at once, when the polling loop exits at poll `k` (status connected,
or deadline reached), `startSTA` returns, and it returns true exactly when the
first status read after the loop is not `WL_DISCONNECTED` and the second one is
`WL_CONNECTED`.  So when the reads after the loop are neither connected nor
disconnected it returns false, and it returns true only if a read after the
loop is `WL_CONNECTED`. -/
theorem C16_startSTA_other_status_false (cfg : Config) (self : WiFiManagerClass) (w : World)
    (hs : self._ssid ≠ "") (hm : w.modeRets 0 = true)
    (hb : w.beginRets 0 ≠ WL_CONNECT_FAILED) (k : Nat)
    (hbefore : ∀ j, j < k → w.statusReads j ≠ WL_CONNECTED ∧
      w.millisReads (j + 1) % 2 ^ 32 <
        (w.millisReads 0 % 2 ^ 32 + cfg.CONNECTION_TIMEOUT) % 2 ^ 32)
    (hexit : w.statusReads k = WL_CONNECTED ∨
      (w.millisReads 0 % 2 ^ 32 + cfg.CONNECTION_TIMEOUT) % 2 ^ 32 ≤
        w.millisReads (k + 1) % 2 ^ 32)
    (fuel : Nat) (hf : k + 1 ≤ fuel) :
    ∃ b w2, startSTA cfg fuel self w = some (b, w2) ∧
      (b = true ↔ (w.statusReads (k + 1) ≠ WL_DISCONNECTED ∧
        w.statusReads (k + 2) = WL_CONNECTED)) ∧
      (w.statusReads (k + 1) ≠ WL_CONNECTED → w.statusReads (k + 1) ≠ WL_DISCONNECTED →
        w.statusReads (k + 2) ≠ WL_CONNECTED → w.statusReads (k + 2) ≠ WL_DISCONNECTED →
        b = false) ∧
      (b = true → w.statusReads (k + 2) = WL_CONNECTED) := by
  obtain ⟨w3, hrun, hst3, hml3⟩ := startSTA_poll_streams cfg self w hs hm hb
  obtain ⟨w2, hw2, hst⟩ := pollLoop_exit
    ((w.millisReads 0 % 2 ^ 32 + cfg.CONNECTION_TIMEOUT) % 2 ^ 32) k w3 fuel
    (by
      intro j hj
      rw [hst3, hml3]
      exact hbefore j hj)
    (by rw [hst3, hml3]; exact hexit) hf
  have e1 : w2.statusReads 0 = w.statusReads (k + 1) := by
    rw [hst 0, hst3]
    simp
  have e2 : w2.statusReads 1 = w.statusReads (k + 2) := by
    rw [hst 1, hst3]
    congr 1
    omega
  have hiff : ((afterPoll w2).1 = true ↔ (w.statusReads (k + 1) ≠ WL_DISCONNECTED ∧
      w.statusReads (k + 2) = WL_CONNECTED)) := by
    rw [← e1, ← e2]
    simp only [afterPoll, WiFi.status]
    split_ifs with h1 h2
    · simp [h1]
    · simp [h1, h2]
    · simp [h2]
  refine ⟨(afterPoll w2).1, (afterPoll w2).2, ?_, hiff, ?_, ?_⟩
  · rw [hrun fuel, hw2]
    rfl
  · intro _ hnd hnc _
    cases hb2 : (afterPoll w2).1
    · rfl
    · exact absurd (hiff.mp hb2).2 hnc
  · intro hb2
    exact (hiff.mp hb2).2

/-- Instance of C16: the link is idle on every read and clock read 20 reaches
the deadline. -/
theorem C16_startSTA_other_status_false_witness :
    ∃ b w2, startSTA demoCfg 20 (demoSelf "Home" "secret")
        (demoWorld true WL_IDLE_STATUS (fun _ => WL_IDLE_STATUS) ⟨0, []⟩) = some (b, w2) ∧
      b = false :=
  let ⟨b, w2, h, _, hfalse, _⟩ :=
    C16_startSTA_other_status_false demoCfg (demoSelf "Home" "secret")
      (demoWorld true WL_IDLE_STATUS (fun _ => WL_IDLE_STATUS) ⟨0, []⟩)
      (by decide) rfl (by decide) 19 (by decide) (Or.inr (by decide)) 20 (by decide)
  ⟨b, w2, h, hfalse (by decide) (by decide) (by decide) (by decide)⟩

/-- C17: for every request without `refresh` whose `mode` value is neither
"ap" nor "sta", the instance fields are unchanged (so the held mode and
`_doReset`), the persisted mode key is written with the held mode (as a byte),
no other key changes, and the only response is 200 "OK". -/
theorem C17_mode_other_value (self : WiFiManagerClass) (request : AsyncWebServerRequest)
    (w : World) (hr : request.hasArg "refresh" = false) (hm : request.hasArg "mode" = true)
    (h1 : request.arg "mode" ≠ "ap") (h2 : request.arg "mode" ≠ "sta") :
    (webServerANYWifReq self request w).1 = self ∧
    (webServerANYWifReq self request w).2.prefs PREF_KEY_WIFI_MODE =
      some (PrefVal.uchar (self._wifiMode % 256)) ∧
    (self._wifiMode < 256 →
      (webServerANYWifReq self request w).2.prefs PREF_KEY_WIFI_MODE =
        some (PrefVal.uchar self._wifiMode)) ∧
    (∀ k, k ≠ PREF_KEY_WIFI_MODE → (webServerANYWifReq self request w).2.prefs k = w.prefs k) ∧
    (webServerANYWifReq self request w).2.trace =
      w.trace ++ [Event.log "Serve req",
        Event.prefPutUChar PREF_KEY_WIFI_MODE (self._wifiMode % 256),
        Event.send 200 "text/plain" "OK"] := by
  have hp : (webServerANYWifReq self request w).2.prefs PREF_KEY_WIFI_MODE =
      some (PrefVal.uchar (self._wifiMode % 256)) := by
    simp [webServerANYWifReq, hr, hm, h1, h2, setWifiModePref, putUChar, LOG_Println,
      World.emit, AsyncWebServerRequest.send]
  refine ⟨?_, hp, ?_, ?_, ?_⟩
  · simp [webServerANYWifReq, hr, hm, h1, h2]
  · intro hlt
    rw [hp, Nat.mod_eq_of_lt hlt]
  · intro k hk
    simp [webServerANYWifReq, hr, hm, setWifiModePref, putUChar, LOG_Println, World.emit,
      AsyncWebServerRequest.send, hk]
  · simp [webServerANYWifReq, hr, hm, h1, h2, setWifiModePref, putUChar, LOG_Println,
      World.emit, AsyncWebServerRequest.send]

/-- Instance of C17 with the values "AP" and "". -/
theorem C17_mode_other_value_witness :
    ((webServerANYWifReq (demoSelf "Home" "secret") ⟨"/reqwifi", [("mode", "AP")]⟩
        (demoWorld true WL_IDLE_STATUS connectsAtPoll2 ⟨0, []⟩)).1 = demoSelf "Home" "secret" ∧
      (webServerANYWifReq (demoSelf "Home" "secret") ⟨"/reqwifi", [("mode", "AP")]⟩
        (demoWorld true WL_IDLE_STATUS connectsAtPoll2 ⟨0, []⟩)).2.prefs PREF_KEY_WIFI_MODE =
        some (PrefVal.uchar ((demoSelf "Home" "secret")._wifiMode % 256))) ∧
    ((webServerANYWifReq (demoSelf "Home" "secret") ⟨"/reqwifi", [("mode", "")]⟩
        (demoWorld true WL_IDLE_STATUS connectsAtPoll2 ⟨0, []⟩)).1 = demoSelf "Home" "secret" ∧
      (webServerANYWifReq (demoSelf "Home" "secret") ⟨"/reqwifi", [("mode", "")]⟩
        (demoWorld true WL_IDLE_STATUS connectsAtPoll2 ⟨0, []⟩)).2.prefs PREF_KEY_WIFI_MODE =
        some (PrefVal.uchar ((demoSelf "Home" "secret")._wifiMode % 256))) :=
  ⟨⟨(C17_mode_other_value (demoSelf "Home" "secret") ⟨"/reqwifi", [("mode", "AP")]⟩
        (demoWorld true WL_IDLE_STATUS connectsAtPoll2 ⟨0, []⟩)
        (by decide) (by decide) (by decide) (by decide)).1,
     (C17_mode_other_value (demoSelf "Home" "secret") ⟨"/reqwifi", [("mode", "AP")]⟩
        (demoWorld true WL_IDLE_STATUS connectsAtPoll2 ⟨0, []⟩)
        (by decide) (by decide) (by decide) (by decide)).2.1⟩,
   ⟨(C17_mode_other_value (demoSelf "Home" "secret") ⟨"/reqwifi", [("mode", "")]⟩
        (demoWorld true WL_IDLE_STATUS connectsAtPoll2 ⟨0, []⟩)
        (by decide) (by decide) (by decide) (by decide)).1,
     (C17_mode_other_value (demoSelf "Home" "secret") ⟨"/reqwifi", [("mode", "")]⟩
        (demoWorld true WL_IDLE_STATUS connectsAtPoll2 ⟨0, []⟩)
        (by decide) (by decide) (by decide) (by decide)).2.1⟩⟩

/-! ## The calls of one pass of the portal loop -/

theorem stationCallsOnly_refl (w : World) : stationCallsOnly w w :=
  ⟨[], by simp, by simp⟩

theorem stationCallsOnly_trans {a b c : World} (h1 : stationCallsOnly a b)
    (h2 : stationCallsOnly b c) : stationCallsOnly a c := by
  obtain ⟨e1, ht1, hp1⟩ := h1
  obtain ⟨e2, ht2, hp2⟩ := h2
  refine ⟨e1 ++ e2, ?_, ?_⟩
  · rw [ht2, ht1, List.append_assoc]
  · intro e he
    rcases List.mem_append.mp he with h | h
    · exact hp1 e h
    · exact hp2 e h

theorem stationCallsOnly_emit (w : World) (e : Event) (h : e.isStationCall = true) :
    stationCallsOnly w (w.emit e) :=
  ⟨[e], rfl, by
    intro x hx
    rw [List.mem_singleton.mp hx]
    exact h⟩

/-- The polling loop makes only calls of `startSTA`. -/
theorem pollLoop_stationCallsOnly (T : Nat) :
    ∀ (fuel : Nat) (w w2 : World), pollLoop T fuel w = some w2 → stationCallsOnly w w2 := by
  intro fuel
  induction fuel with
  | zero =>
    intro w w2 h
    simp [pollLoop] at h
  | succ f ih =>
    intro w w2 h
    have hs : stationCallsOnly w (WiFi.status w).2 :=
      stationCallsOnly_emit w Event.wifiStatus rfl
    have hm : stationCallsOnly (WiFi.status w).2 (millis (WiFi.status w).2).2 :=
      stationCallsOnly_emit _ Event.millis rfl
    by_cases h1 : (WiFi.status w).1 ≠ WL_CONNECTED
    · by_cases h2 : T > (millis (WiFi.status w).2).1
      · simp only [pollLoop, h1, h2, ne_eq, not_false_eq_true, if_true] at h
        exact stationCallsOnly_trans hs (stationCallsOnly_trans hm
          (stationCallsOnly_trans (stationCallsOnly_emit _ (Event.log ".") rfl)
            (stationCallsOnly_trans (stationCallsOnly_emit _ (Event.delay 500) rfl)
              (ih _ _ h))))
      · simp only [pollLoop, h1, h2, ne_eq, not_false_eq_true, if_true, if_false,
          Option.some.injEq] at h
        rw [← h]
        exact stationCallsOnly_trans hs hm
    · simp only [pollLoop, h1, if_false, Option.some.injEq] at h
      rw [← h]
      exact hs

/-- The two status checks after the loop make only calls of `startSTA`. -/
theorem afterPoll_stationCallsOnly (w : World) : stationCallsOnly w (afterPoll w).2 := by
  have hs : stationCallsOnly w (WiFi.status w).2 :=
    stationCallsOnly_emit w Event.wifiStatus rfl
  have hs2 : stationCallsOnly (WiFi.status w).2 (WiFi.status (WiFi.status w).2).2 :=
    stationCallsOnly_emit _ Event.wifiStatus rfl
  simp only [afterPoll]
  split_ifs
  · exact stationCallsOnly_trans hs (stationCallsOnly_emit _ (Event.log _) rfl)
  · exact stationCallsOnly_trans hs
      (stationCallsOnly_trans hs2 (stationCallsOnly_emit _ (Event.log _) rfl))
  · exact stationCallsOnly_trans hs hs2

/-- Every call `startSTA` makes is a log, `WiFi.mode`, `WiFi.begin`, `millis`,
`WiFi.status` or `delay` call. -/
theorem startSTA_stationCallsOnly (cfg : Config) (fuel : Nat) (self : WiFiManagerClass)
    (w : World) (b : Bool) (w2 : World) (h : startSTA cfg fuel self w = some (b, w2)) :
    stationCallsOnly w w2 := by
  have hl1 : stationCallsOnly w
      (LOG_Println ("called with SSID " ++ self._ssid ++ " and pass " ++ self._pass) w) :=
    stationCallsOnly_emit w (Event.log _) rfl
  have hl2 : stationCallsOnly
      (LOG_Println ("called with SSID " ++ self._ssid ++ " and pass " ++ self._pass) w)
      (LOG_Println ("using " ++ self._ssid ++ " and pass " ++ self._pass)
        (LOG_Println ("called with SSID " ++ self._ssid ++ " and pass " ++ self._pass) w)) :=
    stationCallsOnly_emit _ (Event.log _) rfl
  have hmode := stationCallsOnly_emit
    (LOG_Println ("using " ++ self._ssid ++ " and pass " ++ self._pass)
      (LOG_Println ("called with SSID " ++ self._ssid ++ " and pass " ++ self._pass) w))
    (Event.wifiMode WIFI_STA) rfl
  by_cases h1 : self._ssid.length > 0
  · by_cases h2 : (WiFi.mode WIFI_STA
        (LOG_Println ("using " ++ self._ssid ++ " and pass " ++ self._pass)
          (LOG_Println ("called with SSID " ++ self._ssid ++ " and pass " ++ self._pass)
            w))).1 = true
    · have hbegin := stationCallsOnly_emit (WiFi.mode WIFI_STA
          (LOG_Println ("using " ++ self._ssid ++ " and pass " ++ self._pass)
            (LOG_Println ("called with SSID " ++ self._ssid ++ " and pass " ++ self._pass)
              w))).2
        (Event.wifiBegin self._ssid (if self._pass.length > 0 then some self._pass else none))
        rfl
      have h012 := stationCallsOnly_trans hl1 (stationCallsOnly_trans hl2
        (stationCallsOnly_trans hmode hbegin))
      by_cases h3 : WL_CONNECT_FAILED = (WiFi.begin self._ssid
          (if self._pass.length > 0 then some self._pass else none)
          (WiFi.mode WIFI_STA
            (LOG_Println ("using " ++ self._ssid ++ " and pass " ++ self._pass)
              (LOG_Println ("called with SSID " ++ self._ssid ++ " and pass " ++ self._pass)
                w))).2).1
      · simp only [startSTA, h1, h2, h3, if_true, Bool.not_true, Bool.false_eq_true, if_false,
          Option.some.injEq, Prod.mk.injEq] at h
        rw [← h.2]
        exact h012
      · simp only [startSTA, h1, h2, h3, if_true, Bool.not_true, Bool.false_eq_true, if_false,
          Option.map_eq_some'] at h
        obtain ⟨w1, hw1, hw2⟩ := h
        have hp := pollLoop_stationCallsOnly _ _ _ _ hw1
        have ha := afterPoll_stationCallsOnly w1
        rw [hw2] at ha
        exact stationCallsOnly_trans h012 (stationCallsOnly_trans
          (stationCallsOnly_emit _ Event.millis rfl) (stationCallsOnly_trans hp ha))
    · simp only [startSTA, h1, h2, if_true, Bool.not_eq_true, Bool.not_false,
        Option.some.injEq, Prod.mk.injEq] at h
      rw [← h.2]
      exact stationCallsOnly_trans hl1 (stationCallsOnly_trans hl2 hmode)
  · simp only [startSTA, h1, if_false, Option.some.injEq, Prod.mk.injEq] at h
    rw [← h.2]
    exact hl1

/-- The block `if(_needConfig)` makes no reboot call. -/
theorem loopConfigPart_no_reboot (cfg : Config) (fuel : Nat) (self : WiFiManagerClass)
    (w : World) (r : WiFiManagerClass × World) (h : loopConfigPart cfg fuel self w = some r) :
    ∃ evs, r.2.trace = w.trace ++ evs ∧ Event.reboot ∉ evs := by
  by_cases hn : self._needConfig = true
  · cases hsta : startSTA cfg fuel self (LOG_Println "test new connection" w) with
    | none => simp [loopConfigPart, hn, hsta] at h
    | some p =>
      obtain ⟨ok, w2⟩ := p
      obtain ⟨evs, htr, hev⟩ := startSTA_stationCallsOnly cfg fuel self _ ok w2 hsta
      have hnr : Event.reboot ∉ evs := fun hmem => by
        have := hev _ hmem
        simp [Event.isStationCall] at this
      cases ok with
      | true =>
        simp only [loopConfigPart, hn, if_true, hsta, Option.some.injEq] at h
        refine ⟨[Event.log "test new connection"] ++ evs ++
          [Event.prefPutString PREF_KEY_WIFI_SSID self._ssid,
           Event.prefPutString PREF_KEY_WIFI_PASS self._pass,
           Event.prefPutUChar PREF_KEY_WIFI_MODE (WIFI_STA % 256)], ?_, ?_⟩
        · rw [← h]
          simp [setWifiModePref, setStringPref, putUChar, putString, htr, LOG_Println,
            World.emit]
        · simp [hnr]
      | false =>
        simp only [loopConfigPart, hn, if_true, hsta, Bool.false_eq_true, if_false,
          Option.some.injEq] at h
        refine ⟨[Event.log "test new connection"] ++ evs, ?_, ?_⟩
        · rw [← h]
          simp [htr, LOG_Println, World.emit]
        · simp [hnr]
  · simp only [loopConfigPart, hn, Bool.false_eq_true, if_false, Option.some.injEq] at h
    refine ⟨[], ?_, by simp⟩
    rw [← h]
    simp

/-- C18: for a pass of the portal loop whose `if(_needConfig)` block ends in
the fields and world `r`: (1) `_doReset` is set at the reset check exactly
when it was set at the start of the pass or the pass's own connection attempt
succeeded; (2) when it is set there, the pass clears `_doReset` and ends in
the reboot call; (3) when it is unset there (so after a failed attempt with
`_doReset` unset), the pass makes no reboot call and ends with one
`processNextRequest` call of the DNS responder. -/
theorem C18_loop_reboot_iff_doReset (cfg : Config) (fuel : Nat) (self : WiFiManagerClass)
    (w : World) (r : WiFiManagerClass × World)
    (h : loopConfigPart cfg fuel self w = some r) :
    (r.1._doReset = true ↔
      (self._doReset = true ∨
        (self._needConfig = true ∧
          ∃ w2, startSTA cfg fuel self (LOG_Println "test new connection" w) =
            some (true, w2)))) ∧
    (r.1._doReset = true →
      loopCaptiveIter cfg fuel self w =
        some (LoopStep.rebooted { r.1 with _doReset := false }
          { r.2 with trace := r.2.trace ++ [Event.reboot] })) ∧
    (r.1._doReset = false →
      loopCaptiveIter cfg fuel self w =
        some (LoopStep.next r.1
          { r.2 with trace := r.2.trace ++ [Event.dnsProcessNextRequest] }) ∧
      ∃ evs, r.2.trace ++ [Event.dnsProcessNextRequest] = w.trace ++ evs ∧
        Event.reboot ∉ evs) := by
  refine ⟨?_, ?_, ?_⟩
  · by_cases hn : self._needConfig = true
    · cases hsta : startSTA cfg fuel self (LOG_Println "test new connection" w) with
      | none => simp [loopConfigPart, hn, hsta] at h
      | some p =>
        obtain ⟨ok, w2⟩ := p
        cases ok with
        | true =>
          simp only [loopConfigPart, hn, if_true, hsta, Option.some.injEq] at h
          rw [← h]
          simp [hn]
        | false =>
          simp only [loopConfigPart, hn, if_true, hsta, Bool.false_eq_true, if_false,
            Option.some.injEq] at h
          rw [← h]
          simp
    · simp only [loopConfigPart, hn, Bool.false_eq_true, if_false, Option.some.injEq] at h
      rw [← h]
      simp [hn]
  · intro hd
    simp [loopCaptiveIter, h, loopResetPart, hd, sysReboot, World.emit]
  · intro hd
    refine ⟨?_, ?_⟩
    · simp [loopCaptiveIter, h, loopResetPart, hd, World.emit]
    · obtain ⟨evs, htr, hnr⟩ := loopConfigPart_no_reboot cfg fuel self w r h
      refine ⟨evs ++ [Event.dnsProcessNextRequest], ?_, ?_⟩
      · rw [htr, List.append_assoc]
      · simp [hnr]

/-- Instance of C18: a pass with `_doReset` set by the handler; a pass whose
connection attempt succeeds; a pass whose attempt fails with `_doReset` unset. -/
theorem C18_loop_reboot_iff_doReset_witness :
    loopCaptiveIter demoCfg 0 { demoSelf "" "" with _doReset := true }
        (demoWorld true WL_IDLE_STATUS connectsAtPoll2 ⟨0, []⟩) =
      some (LoopStep.rebooted (demoSelf "" "")
        { demoWorld true WL_IDLE_STATUS connectsAtPoll2 ⟨0, []⟩ with
          trace := (demoWorld true WL_IDLE_STATUS connectsAtPoll2 ⟨0, []⟩).trace ++
            [Event.reboot] }) ∧
    (∃ s2 w2, loopCaptiveIter demoCfg 3 { demoSelf "Home" "secret" with _needConfig := true }
        (demoWorld true WL_IDLE_STATUS connectsAtPoll2 ⟨0, []⟩) =
      some (LoopStep.rebooted s2 w2)) ∧
    (∃ s2 w2, loopCaptiveIter demoCfg 20 { demoSelf "Home" "secret" with _needConfig := true }
        (demoWorld true WL_IDLE_STATUS (fun _ => WL_DISCONNECTED) ⟨0, []⟩) =
      some (LoopStep.next s2 w2)) :=
  ⟨(C18_loop_reboot_iff_doReset demoCfg 0 { demoSelf "" "" with _doReset := true }
      (demoWorld true WL_IDLE_STATUS connectsAtPoll2 ⟨0, []⟩) _ rfl).2.1 rfl,
   ⟨_, _, (C18_loop_reboot_iff_doReset demoCfg 3
      { demoSelf "Home" "secret" with _needConfig := true }
      (demoWorld true WL_IDLE_STATUS connectsAtPoll2 ⟨0, []⟩) _ rfl).2.1 rfl⟩,
   ⟨_, _, ((C18_loop_reboot_iff_doReset demoCfg 20
      { demoSelf "Home" "secret" with _needConfig := true }
      (demoWorld true WL_IDLE_STATUS (fun _ => WL_DISCONNECTED) ⟨0, []⟩) _ rfl).2.2 rfl).1⟩⟩

/-! ## The deadline of the polling loop -/

/-- While no poll reads `WL_CONNECTED` and every clock read is below the
deadline value, the loop is still polling after `k` tests. -/
theorem pollLoop_keeps_polling (T : Nat) :
    ∀ (k : Nat) (w : World),
      (∀ j, j < k → w.statusReads j ≠ WL_CONNECTED ∧ w.millisReads j % 2 ^ 32 < T) →
      pollLoop T k w = none := by
  intro k
  induction k with
  | zero =>
    intro w _
    rfl
  | succ k ih =>
    intro w hlt
    have h0 := hlt 0 (Nat.succ_pos k)
    have h1 : (WiFi.status w).1 ≠ WL_CONNECTED := h0.1
    have h2 : T > (millis (WiFi.status w).2).1 := h0.2
    rw [pollLoop]
    simp only [h1, h2, ne_eq, not_false_eq_true, if_true]
    apply ih
    intro j hj
    have := hlt (j + 1) (by omega)
    simpa [delay, LOG_Println, World.emit, millis, WiFi.status] using this

/-- When the sum `millis() + CONNECTION_TIMEOUT` does not wrap, `startSTA`
keeps polling as long as the link is not connected and fewer than
`CONNECTION_TIMEOUT` milliseconds have elapsed on the clock. -/
theorem startSTA_keeps_polling_without_wrap (cfg : Config) (self : WiFiManagerClass)
    (w : World) (hs : self._ssid ≠ "") (hm : w.modeRets 0 = true)
    (hb : w.beginRets 0 ≠ WL_CONNECT_FAILED)
    (hnowrap : w.millisReads 0 % 2 ^ 32 + cfg.CONNECTION_TIMEOUT < 2 ^ 32) (k : Nat)
    (hlt : ∀ j, j < k → w.statusReads j ≠ WL_CONNECTED ∧
      w.millisReads (j + 1) % 2 ^ 32 < w.millisReads 0 % 2 ^ 32 + cfg.CONNECTION_TIMEOUT) :
    startSTA cfg k self w = none := by
  obtain ⟨w3, hrun, hst3, hml3⟩ := startSTA_poll_streams cfg self w hs hm hb
  rw [hrun k, pollLoop_keeps_polling _ k w3]
  · rfl
  · intro j hj
    rw [hst3, hml3, Nat.mod_eq_of_lt hnowrap]
    exact hlt j hj

/-- C19 (the code departs from the specification): with the clock 1000 ms
before its wrap and a timeout of 10000 ms, the sum `millis() +
CONNECTION_TIMEOUT` exceeds 2^32 - 1 and wraps to 9000; the first loop test,
1 ms after the start, finds the clock above that value, so `startSTA` leaves
the loop without a single `delay(500)` and returns false. -/
theorem C19_wrapped_deadline_exits_at_first_poll :
    4294966296 + demoCfg.CONNECTION_TIMEOUT > 2 ^ 32 - 1 ∧
    (4294966296 + demoCfg.CONNECTION_TIMEOUT) % 2 ^ 32 = 9000 ∧
    (startSTA demoCfg 1 (demoSelf "Home" "secret") demoWrapWorld).map
        (fun r => (r.1, r.2.trace)) =
      some (false,
        [Event.log "called with SSID Home and pass secret",
         Event.log "using Home and pass secret",
         Event.wifiMode WIFI_STA,
         Event.wifiBegin "Home" (some "secret"),
         Event.millis,
         Event.wifiStatus,
         Event.millis,
         Event.wifiStatus,
         Event.log "Conn FAIL"]) := by
  refine ⟨by decide, by decide, by decide⟩

/-! ## The invariant on `_needConfig` -/

/-- C15 (the code departs from the specification): after a boot into the
portal, the submission ("A","p") sets `_needConfig` with staged SSID "A"; a
second submission ("","") before the next pass of the loop overwrites the
staged SSID with the empty string and leaves `_needConfig` set, so
`_needConfig` holds with an empty staged SSID. -/
theorem C15_empty_resubmission_keeps_needConfig :
    (run demoCfg 0 [Op.boot]
        { phase := Phase.down, self := demoSelf "" "",
          w := demoWorld true WL_IDLE_STATUS connectsAtPoll2 ⟨0, []⟩ }).map
        (fun s => (s.phase, s.self._needConfig)) = some (Phase.portal, false) ∧
    (run demoCfg 0
        [Op.boot, Op.request ⟨"/reqwifi", [("s", "A"), ("p", "p")]⟩]
        { phase := Phase.down, self := demoSelf "" "",
          w := demoWorld true WL_IDLE_STATUS connectsAtPoll2 ⟨0, []⟩ }).map
        (fun s => (s.self._needConfig, s.self._ssid)) = some (true, "A") ∧
    (run demoCfg 0
        [Op.boot, Op.request ⟨"/reqwifi", [("s", "A"), ("p", "p")]⟩,
          Op.request ⟨"/reqwifi", [("s", ""), ("p", "")]⟩]
        { phase := Phase.down, self := demoSelf "" "",
          w := demoWorld true WL_IDLE_STATUS connectsAtPoll2 ⟨0, []⟩ }).map
        (fun s => (s.self._needConfig, s.self._ssid)) = some (true, "") := by
  refine ⟨by decide, by decide, by decide⟩

/-! ## Who writes the store -/

/-- C14 (counterexample): after a boot into the portal on an empty store, the
request `/reqwifi?mode=ap`, which is neither a reset nor a pass of the portal
loop, writes the persisted mode key: the key, absent before, holds `WIFI_AP`. -/
theorem C14_mode_request_writes_store :
    (demoWorld true WL_IDLE_STATUS connectsAtPoll2 ⟨0, []⟩).prefs PREF_KEY_WIFI_MODE = none ∧
    (run demoCfg 0 [Op.boot]
        { phase := Phase.down, self := demoSelf "" "",
          w := demoWorld true WL_IDLE_STATUS connectsAtPoll2 ⟨0, []⟩ }).map
        (fun s => (s.phase, s.w.prefs PREF_KEY_WIFI_MODE, prefWrites s.w.trace)) =
      some (Phase.portal, none, []) ∧
    (run demoCfg 0 [Op.boot, Op.request ⟨"/reqwifi", [("mode", "ap")]⟩]
        { phase := Phase.down, self := demoSelf "" "",
          w := demoWorld true WL_IDLE_STATUS connectsAtPoll2 ⟨0, []⟩ }).map
        (fun s => (s.w.prefs PREF_KEY_WIFI_MODE, prefWrites s.w.trace)) =
      some (some (PrefVal.uchar WIFI_AP), [PREF_KEY_WIFI_MODE]) := by
  refine ⟨by decide, by decide, by decide⟩

/-- Calls that are no store writes leave the store untouched. -/
theorem storeUntouched_append (w : World) (evs : List Event)
    (h : ∀ e, e ∈ evs → e.isStoreWrite = false) :
    storeUntouched w { w with trace := w.trace ++ evs } := by
  induction evs generalizing w with
  | nil =>
    have : ({ w with trace := w.trace ++ [] } : World) = w := by simp
    rw [this]
    exact storeUntouched_refl w
  | cons e t ih =>
    have h1 := storeUntouched_emit w e (h e (List.mem_cons_self e t))
    have h2 := ih (w.emit e) (fun x hx => h x (List.mem_cons_of_mem e hx))
    have : ({ w.emit e with trace := (w.emit e).trace ++ t } : World) =
        { w with trace := w.trace ++ e :: t } := by
      simp [World.emit]
    rw [this] at h2
    exact storeUntouched_trans h1 h2

/-- `begin` writes nothing to the store, whatever path it takes. -/
theorem begin_storeUntouched (cfg : Config) (fuel : Nat) (self : WiFiManagerClass) (w : World)
    (o : BootOutcome) (h : begin cfg fuel self w = some o) :
    storeUntouched w o.toSys.w := by
  have hreads : storeUntouched w { w with trace := w.trace ++
      [Event.spiffsBegin, Event.prefBegin cfg.PREF_WIFI_NAMESPACE,
       Event.prefGetString PREF_KEY_WIFI_SSID, Event.prefGetString PREF_KEY_WIFI_PASS,
       Event.prefGetUChar PREF_KEY_WIFI_MODE] } :=
    storeUntouched_append w _ (by simp [Event.isStoreWrite])
  have hap : ∀ w1 : World, storeUntouched w1 (startAP cfg w1) := by
    intro w1
    rw [startAP_eq]
    exact storeUntouched_append w1 _ (by simp [startAPCalls, Event.isStoreWrite])
  have hcap : ∀ w1 : World, storeUntouched w1 (beginCaptive cfg w1) := by
    intro w1
    rw [beginCaptive_eq]
    exact storeUntouched_append w1 _
      (by simp [beginCaptiveCalls, startAPCalls, Event.isStoreWrite])
  rw [begin_eq] at h
  split_ifs at h with h1 h2
  · cases h
    exact storeUntouched_trans hreads (hap _)
  · split at h
    · cases h
    · rename_i ok w2 hsta
      have hst := startSTA_storeUntouched cfg fuel _ _ ok w2 hsta
      split_ifs at h
      · cases h
        exact storeUntouched_trans hreads (storeUntouched_trans hst (hcap _))
      · cases h
        exact storeUntouched_trans hreads hst
  · cases h
    exact hreads

/-- `begin` ends in the portal only with the held mode `WIFI_STA`. -/
theorem begin_portal_mode (cfg : Config) (fuel : Nat) (self : WiFiManagerClass) (w : World)
    (o : BootOutcome) (h : begin cfg fuel self w = some o)
    (hp : o.toSys.phase = Phase.portal) : o.toSys.self._wifiMode = WIFI_STA := by
  rw [begin_eq] at h
  split_ifs at h with h1 h2
  · cases h
    simp [BootOutcome.toSys] at hp
  · split at h
    · cases h
    · split_ifs at h
      · cases h
        exact h2.symm
      · cases h
        simp [BootOutcome.toSys] at hp
  · cases h
    simp [BootOutcome.toSys] at hp

/-- The handler writes nothing to the store unless the request has a `mode`
argument and no `refresh` argument. -/
theorem webServerANYWifReq_storeUntouched (self : WiFiManagerClass)
    (request : AsyncWebServerRequest) (w : World)
    (h : request.hasArg "refresh" = true ∨ request.hasArg "mode" = false) :
    storeUntouched w (webServerANYWifReq self request w).2 := by
  by_cases hr : request.hasArg "refresh" = true
  · have e : ∃ evs, (webServerANYWifReq self request w).2.prefs = w.prefs ∧
        (webServerANYWifReq self request w).2.trace = w.trace ++ evs ∧
        ∀ e, e ∈ evs → e.isStoreWrite = false := by
      by_cases hf : (w.scans 0).ret = WIFI_SCAN_FAILED
      · exact ⟨[Event.log "Serve req", Event.scanNetworks, Event.log "Scan Failed",
            Event.log "\x7b\"networks\":[]\x7d",
            Event.send 200 "text/plain" "\x7b\"networks\":[]\x7d"],
          by simp [webServerANYWifReq, hr, WiFi.scanNetworks, LOG_Println, World.emit,
            AsyncWebServerRequest.send, hf],
          by simp [webServerANYWifReq, hr, WiFi.scanNetworks, LOG_Println, World.emit,
            AsyncWebServerRequest.send, hf],
          by simp [Event.isStoreWrite]⟩
      · by_cases hpos : (w.scans 0).ret > 0
        · exact ⟨[Event.log "Serve req", Event.scanNetworks,
              Event.log (scanBody (WiFi.scanNetworks (LOG_Println "Serve req" w)).2
                (w.scans 0).ret.toNat),
              Event.send 200 "text/plain"
                (scanBody (WiFi.scanNetworks (LOG_Println "Serve req" w)).2
                  (w.scans 0).ret.toNat)],
            by simp [webServerANYWifReq, hr, WiFi.scanNetworks, LOG_Println, World.emit,
              AsyncWebServerRequest.send, hf, hpos],
            by simp [webServerANYWifReq, hr, WiFi.scanNetworks, LOG_Println, World.emit,
              AsyncWebServerRequest.send, hf, hpos],
            by simp [Event.isStoreWrite]⟩
        · exact ⟨[Event.log "Serve req", Event.scanNetworks,
              Event.log "\x7b\"networks\":[]\x7d",
              Event.send 200 "text/plain" "\x7b\"networks\":[]\x7d"],
            by simp [webServerANYWifReq, hr, WiFi.scanNetworks, LOG_Println, World.emit,
              AsyncWebServerRequest.send, hf, hpos],
            by simp [webServerANYWifReq, hr, WiFi.scanNetworks, LOG_Println, World.emit,
              AsyncWebServerRequest.send, hf, hpos],
            by simp [Event.isStoreWrite]⟩
    obtain ⟨evs, hp, ht, hev⟩ := e
    have hu := storeUntouched_append w evs hev
    refine ⟨hp, ?_, ?_⟩
    · rw [ht]
      exact hu.2.1
    · rw [ht]
      exact hu.2.2
  · have hm : request.hasArg "mode" = false := by
      rcases h with h | h
      · exact absurd h hr
      · exact h
    have hr2 : request.hasArg "refresh" = false := by
      cases hx : request.hasArg "refresh"
      · rfl
      · exact absurd hx hr
    by_cases ha : 2 = request.args
    · have e : (webServerANYWifReq self request w).2 =
          { w with trace := w.trace ++
            [Event.log "Serve req", Event.send 200 "text/plain" "OK"] } := by
        simp [webServerANYWifReq, hr2, hm, ha, LOG_Println, World.emit,
          AsyncWebServerRequest.send]
      rw [e]
      exact storeUntouched_append w _ (by simp [Event.isStoreWrite])
    · have e : (webServerANYWifReq self request w).2 =
          { w with trace := w.trace ++
            [Event.log "Serve req", Event.send 403 "text/plain" ""] } := by
        simp [webServerANYWifReq, hr2, hm, ha, LOG_Println, World.emit,
          AsyncWebServerRequest.send]
      rw [e]
      exact storeUntouched_append w _ (by simp [Event.isStoreWrite])

/-- The rest of the loop body, after the `if(_needConfig)` block, writes
nothing to the store and keeps the held mode. -/
theorem loopResetPart_storeUntouched (self : WiFiManagerClass) (w : World) :
    storeUntouched w (loopResetPart self w).toSys.w ∧
      (loopResetPart self w).toSys.self._wifiMode = self._wifiMode := by
  simp only [loopResetPart]
  split_ifs
  · exact ⟨storeUntouched_emit w Event.reboot rfl, rfl⟩
  · exact ⟨storeUntouched_emit w Event.dnsProcessNextRequest rfl, rfl⟩

/-- A pass of the portal loop writes nothing to the store unless its
connection attempt succeeds. -/
theorem loopCaptiveIter_storeUntouched (cfg : Config) (fuel : Nat) (self : WiFiManagerClass)
    (w : World) (ls : LoopStep) (h : loopCaptiveIter cfg fuel self w = some ls)
    (hw : writesStore cfg fuel Op.loopIter { phase := Phase.portal, self := self, w := w } =
      false) :
    storeUntouched w ls.toSys.w := by
  simp only [loopCaptiveIter, Option.map_eq_some'] at h
  obtain ⟨r, hr, hls⟩ := h
  rw [← hls]
  refine storeUntouched_trans ?_ (loopResetPart_storeUntouched r.1 r.2).1
  by_cases hn : self._needConfig = true
  · cases hsta : startSTA cfg fuel self (LOG_Println "test new connection" w) with
    | none => simp [loopConfigPart, hn, hsta] at hr
    | some p =>
      obtain ⟨ok, w2⟩ := p
      cases ok with
      | true => simp [writesStore, hn, hsta] at hw
      | false =>
        simp only [loopConfigPart, hn, if_true, hsta, Bool.false_eq_true, if_false,
          Option.some.injEq] at hr
        rw [← hr]
        exact storeUntouched_trans (storeUntouched_log _ w)
          (startSTA_storeUntouched cfg fuel self _ false w2 hsta)
  · simp only [loopConfigPart, hn, Bool.false_eq_true, if_false, Option.some.injEq] at hr
    rw [← hr]
    exact storeUntouched_refl w

/-- An operation that is not a writer by design leaves the store untouched. -/
theorem step_storeUntouched (cfg : Config) (fuel : Nat) (op : Op) (s s2 : Sys)
    (h : step cfg fuel op s = some s2) (hw : writesStore cfg fuel op s = false) :
    storeUntouched s.w s2.w := by
  cases op with
  | boot =>
    simp only [step] at h
    split_ifs at h
    simp only [Option.map_eq_some'] at h
    obtain ⟨o, ho, hs2⟩ := h
    rw [← hs2]
    exact begin_storeUntouched cfg fuel _ s.w o ho
  | request r =>
    simp only [step] at h
    split_ifs at h
    simp only [Option.some.injEq] at h
    rw [← h]
    apply webServerANYWifReq_storeUntouched
    simp only [writesStore, Bool.and_eq_false_imp, Bool.not_eq_eq_eq_not, Bool.not_true] at hw
    cases hx : r.hasArg "refresh"
    · exact Or.inr (hw hx)
    · exact Or.inl rfl
  | loopIter =>
    simp only [step] at h
    split_ifs at h
    simp only [Option.map_eq_some'] at h
    obtain ⟨ls, hls, hs2⟩ := h
    rw [← hs2]
    exact loopCaptiveIter_storeUntouched cfg fuel s.self s.w ls hls hw
  | reset =>
    simp [writesStore] at hw

/-- C14 (as amended): over every sequence of operations (boot, `/reqwifi`
requests, passes of the portal loop, resets), if no operation of the sequence
is a `resetSetting` call, a pass of the portal loop whose connection attempt
succeeds, or a `/reqwifi` request with a `mode` argument and no `refresh`
argument, then the store is as it was and no key has been written. -/
theorem C14_store_written_only_by_writers (cfg : Config) (fuel : Nat) :
    ∀ (ops : List Op) (s s2 : Sys), run cfg fuel ops s = some s2 →
      noWriterAlong cfg fuel ops s →
      s2.w.prefs = s.w.prefs ∧ prefWrites s2.w.trace = prefWrites s.w.trace := by
  intro ops
  induction ops with
  | nil =>
    intro s s2 h _
    simp only [run, Option.some.injEq] at h
    rw [← h]
    exact ⟨rfl, rfl⟩
  | cons op ops ih =>
    intro s s2 h hq
    cases hst : step cfg fuel op s with
    | none => simp [run, hst] at h
    | some s1 =>
      simp only [run, hst] at h
      have h1 := step_storeUntouched cfg fuel op s s1 hst hq.1
      have h2 := ih s1 s2 h (hq.2 s1 hst)
      exact ⟨h2.1.trans h1.1, h2.2.trans h1.2.1⟩

/-- Instance of C14 (as amended): a boot into the portal, a scan request, a
credential submission and a rejected request write nothing. -/
theorem C14_store_written_only_by_writers_witness :
    ∃ s2, run demoCfg 0
        [Op.boot, Op.request ⟨"/reqwifi", [("refresh", "1")]⟩,
          Op.request ⟨"/reqwifi", [("s", "A"), ("p", "p")]⟩, Op.request ⟨"/reqwifi", []⟩]
        { phase := Phase.down, self := demoSelf "" "",
          w := demoWorld true WL_IDLE_STATUS connectsAtPoll2 ⟨0, []⟩ } = some s2 ∧
      s2.w.prefs = (demoWorld true WL_IDLE_STATUS connectsAtPoll2 ⟨0, []⟩).prefs ∧
      prefWrites s2.w.trace =
        prefWrites (demoWorld true WL_IDLE_STATUS connectsAtPoll2 ⟨0, []⟩).trace :=
  ⟨_, rfl, C14_store_written_only_by_writers demoCfg 0
    [Op.boot, Op.request ⟨"/reqwifi", [("refresh", "1")]⟩,
      Op.request ⟨"/reqwifi", [("s", "A"), ("p", "p")]⟩, Op.request ⟨"/reqwifi", []⟩]
    { phase := Phase.down, self := demoSelf "" "",
      w := demoWorld true WL_IDLE_STATUS connectsAtPoll2 ⟨0, []⟩ } _ rfl
    ⟨rfl, fun _ h1 => by
      cases h1
      exact ⟨rfl, fun _ h2 => by
        cases h2
        exact ⟨rfl, fun _ h3 => by
          cases h3
          exact ⟨rfl, fun _ _ => trivial⟩⟩⟩⟩⟩

/-! ## The values written to the persisted mode key -/

/-- With a held mode of `WIFI_STA` or `WIFI_AP`, the handler keeps such a held
mode and writes only such values to the mode key. -/
theorem webServerANYWifReq_modeWrites (self : WiFiManagerClass)
    (request : AsyncWebServerRequest) (w : World)
    (hI : self._wifiMode = WIFI_STA ∨ self._wifiMode = WIFI_AP) :
    ((webServerANYWifReq self request w).1._wifiMode = WIFI_STA ∨
      (webServerANYWifReq self request w).1._wifiMode = WIFI_AP) ∧
    ∃ vs, modeWrites (webServerANYWifReq self request w).2.trace = modeWrites w.trace ++ vs ∧
      ∀ v, v ∈ vs → v = WIFI_AP ∨ v = WIFI_STA := by
  by_cases hq : request.hasArg "refresh" = true ∨ request.hasArg "mode" = false
  · have hu := webServerANYWifReq_storeUntouched self request w hq
    refine ⟨?_, [], by simpa using hu.2.2, by simp⟩
    have hsame : (webServerANYWifReq self request w).1._wifiMode = self._wifiMode := by
      by_cases hr : request.hasArg "refresh" = true
      · simp [webServerANYWifReq, hr]
      · have hm : request.hasArg "mode" = false := by
          rcases hq with h | h
          · exact absurd h hr
          · exact h
        simp only [webServerANYWifReq, hr, hm, Bool.false_eq_true, if_false]
        split_ifs <;> rfl
    rw [hsame]
    exact hI
  · have hr : request.hasArg "refresh" = false := by
      cases hx : request.hasArg "refresh"
      · rfl
      · exact absurd (Or.inl hx) hq
    have hm : request.hasArg "mode" = true := by
      cases hx : request.hasArg "mode"
      · exact absurd (Or.inr hx) hq
      · rfl
    by_cases h1 : request.arg "mode" = "ap"
    · refine ⟨Or.inr ?_, [WIFI_AP], ?_, by simp⟩
      · simp [webServerANYWifReq, hr, hm, h1]
      · simp [webServerANYWifReq, hr, hm, h1, setWifiModePref, putUChar, LOG_Println,
          World.emit, AsyncWebServerRequest.send, modeWrites_append, modeWrites, WIFI_AP]
    · by_cases h2 : request.arg "mode" = "sta"
      · refine ⟨Or.inl ?_, [WIFI_STA], ?_, by simp⟩
        · simp [webServerANYWifReq, hr, hm, h2]
        · simp [webServerANYWifReq, hr, hm, h2, setWifiModePref, putUChar, LOG_Println,
            World.emit, AsyncWebServerRequest.send, modeWrites_append, modeWrites, WIFI_STA]
      · refine ⟨?_, [self._wifiMode], ?_, ?_⟩
        · simp only [webServerANYWifReq, hr, hm, h1, h2, Bool.false_eq_true, if_false,
            if_true]
          exact hI
        · have hlt : self._wifiMode % 256 = self._wifiMode := by
            rcases hI with h | h <;> rw [h] <;> rfl
          simp [webServerANYWifReq, hr, hm, h1, h2, setWifiModePref, putUChar, LOG_Println,
            World.emit, AsyncWebServerRequest.send, modeWrites_append, modeWrites, hlt]
        · intro v hv
          rw [List.mem_singleton.mp hv]
          exact hI.symm

/-- A pass of the portal loop keeps the held mode or sets it to `WIFI_STA`,
and writes at most `WIFI_STA` to the mode key. -/
theorem loopCaptiveIter_modeWrites (cfg : Config) (fuel : Nat) (self : WiFiManagerClass)
    (w : World) (ls : LoopStep) (h : loopCaptiveIter cfg fuel self w = some ls) :
    (ls.toSys.self._wifiMode = self._wifiMode ∨ ls.toSys.self._wifiMode = WIFI_STA) ∧
    ∃ vs, modeWrites ls.toSys.w.trace = modeWrites w.trace ++ vs ∧
      ∀ v, v ∈ vs → v = WIFI_AP ∨ v = WIFI_STA := by
  simp only [loopCaptiveIter, Option.map_eq_some'] at h
  obtain ⟨r, hr, hls⟩ := h
  have hreset := loopResetPart_storeUntouched r.1 r.2
  rw [hls] at hreset
  rw [hreset.2, hreset.1.2.2]
  by_cases hn : self._needConfig = true
  · cases hsta : startSTA cfg fuel self (LOG_Println "test new connection" w) with
    | none => simp [loopConfigPart, hn, hsta] at hr
    | some p =>
      obtain ⟨ok, w2⟩ := p
      have hst := storeUntouched_trans (storeUntouched_log "test new connection" w)
        (startSTA_storeUntouched cfg fuel self _ ok w2 hsta)
      cases ok with
      | true =>
        simp only [loopConfigPart, hn, if_true, hsta, Option.some.injEq] at hr
        rw [← hr]
        refine ⟨Or.inr rfl, [WIFI_STA], ?_, by simp⟩
        simp [setWifiModePref, setStringPref, putUChar, putString, modeWrites_append,
          modeWrites, hst.2.2, WIFI_STA]
      | false =>
        simp only [loopConfigPart, hn, if_true, hsta, Bool.false_eq_true, if_false,
          Option.some.injEq] at hr
        rw [← hr]
        exact ⟨Or.inl rfl, [], by simpa using hst.2.2, by simp⟩
  · simp only [loopConfigPart, hn, Bool.false_eq_true, if_false, Option.some.injEq] at hr
    rw [← hr]
    exact ⟨Or.inl rfl, [], by simp, by simp⟩

/-- One operation keeps "in the portal the held mode is `WIFI_STA` or
`WIFI_AP`" and writes only these two values to the mode key. -/
theorem step_modeWrites (cfg : Config) (fuel : Nat) (op : Op) (s s2 : Sys)
    (h : step cfg fuel op s = some s2)
    (hI : s.phase = Phase.portal → s.self._wifiMode = WIFI_STA ∨ s.self._wifiMode = WIFI_AP) :
    (s2.phase = Phase.portal →
      s2.self._wifiMode = WIFI_STA ∨ s2.self._wifiMode = WIFI_AP) ∧
    ∃ vs, modeWrites s2.w.trace = modeWrites s.w.trace ++ vs ∧
      ∀ v, v ∈ vs → v = WIFI_AP ∨ v = WIFI_STA := by
  cases op with
  | boot =>
    simp only [step] at h
    split_ifs at h
    simp only [Option.map_eq_some'] at h
    obtain ⟨o, ho, hs2⟩ := h
    rw [← hs2]
    refine ⟨fun hp => Or.inl (begin_portal_mode cfg fuel _ s.w o ho hp), [], ?_, by simp⟩
    simpa using (begin_storeUntouched cfg fuel _ s.w o ho).2.2
  | request r =>
    simp only [step] at h
    split_ifs at h with hp
    simp only [Option.some.injEq] at h
    rw [← h]
    have := webServerANYWifReq_modeWrites s.self r s.w (hI hp)
    exact ⟨fun _ => this.1, this.2⟩
  | loopIter =>
    simp only [step] at h
    split_ifs at h with hp
    simp only [Option.map_eq_some'] at h
    obtain ⟨ls, hls, hs2⟩ := h
    rw [← hs2]
    have := loopCaptiveIter_modeWrites cfg fuel s.self s.w ls hls
    refine ⟨fun _ => ?_, this.2⟩
    rcases this.1 with hk | hk
    · rw [hk]
      exact hI hp
    · exact Or.inl hk
  | reset =>
    simp only [step, Option.some.injEq] at h
    rw [← h]
    refine ⟨fun hp => by simp at hp, [WIFI_STA], ?_, by simp⟩
    simp [resetSetting, setWifiModePref, putUChar, sysReboot, World.emit, modeWrites_append,
      modeWrites, WIFI_STA]

/-- The same over a sequence of operations. -/
theorem run_modeWrites (cfg : Config) (fuel : Nat) :
    ∀ (ops : List Op) (s s2 : Sys), run cfg fuel ops s = some s2 →
      (s.phase = Phase.portal → s.self._wifiMode = WIFI_STA ∨ s.self._wifiMode = WIFI_AP) →
      ∃ vs, modeWrites s2.w.trace = modeWrites s.w.trace ++ vs ∧
        ∀ v, v ∈ vs → v = WIFI_AP ∨ v = WIFI_STA := by
  intro ops
  induction ops with
  | nil =>
    intro s s2 h _
    simp only [run, Option.some.injEq] at h
    rw [← h]
    exact ⟨[], by simp, by simp⟩
  | cons op ops ih =>
    intro s s2 h hI
    cases hst : step cfg fuel op s with
    | none => simp [run, hst] at h
    | some s1 =>
      simp only [run, hst] at h
      obtain ⟨hI1, vs1, hv1, hok1⟩ := step_modeWrites cfg fuel op s s1 hst hI
      obtain ⟨vs2, hv2, hok2⟩ := ih s1 s2 h hI1
      refine ⟨vs1 ++ vs2, ?_, ?_⟩
      · rw [hv2, hv1, List.append_assoc]
      · intro v hv
        rcases List.mem_append.mp hv with hx | hx
        · exact hok1 v hx
        · exact hok2 v hx

/-- C20: from a device that is down (whatever its store holds, whatever mode
byte included), through any sequence of boots, `/reqwifi` requests, passes of
the portal loop and `resetSetting` calls, every value written to the persisted
mode key is `WIFI_AP` or `WIFI_STA`. -/
theorem C20_mode_writes_are_ap_or_sta (cfg : Config) (fuel : Nat) (ops : List Op)
    (s s2 : Sys) (hdown : s.phase = Phase.down) (h : run cfg fuel ops s = some s2) :
    ∃ vs, modeWrites s2.w.trace = modeWrites s.w.trace ++ vs ∧
      ∀ v, v ∈ vs → v = WIFI_AP ∨ v = WIFI_STA :=
  run_modeWrites cfg fuel ops s s2 h (fun hp => by
    rw [hdown] at hp
    exact absurd hp (by decide))

/-- Instance of C20: a boot into the portal, a request with an unknown mode
value, `mode=ap`, the pass of the loop that reboots, the next boot (as access
point) and a reset. -/
theorem C20_mode_writes_are_ap_or_sta_witness :
    ∃ s2, run demoCfg 0
        [Op.boot, Op.request ⟨"/reqwifi", [("mode", "zz")]⟩,
          Op.request ⟨"/reqwifi", [("mode", "ap")]⟩, Op.loopIter, Op.boot, Op.reset]
        { phase := Phase.down, self := demoSelf "" "",
          w := demoWorld true WL_IDLE_STATUS connectsAtPoll2 ⟨0, []⟩ } = some s2 ∧
      ∃ vs, modeWrites s2.w.trace =
          modeWrites (demoWorld true WL_IDLE_STATUS connectsAtPoll2 ⟨0, []⟩).trace ++ vs ∧
        ∀ v, v ∈ vs → v = WIFI_AP ∨ v = WIFI_STA :=
  ⟨_, rfl, C20_mode_writes_are_ap_or_sta demoCfg 0
    [Op.boot, Op.request ⟨"/reqwifi", [("mode", "zz")]⟩,
      Op.request ⟨"/reqwifi", [("mode", "ap")]⟩, Op.loopIter, Op.boot, Op.reset]
    { phase := Phase.down, self := demoSelf "" "",
      w := demoWorld true WL_IDLE_STATUS connectsAtPoll2 ⟨0, []⟩ } _ rfl rfl⟩

end WiFiManager
